import Mathlib

/-!
# W25Q64FV serial flash driver

A shallow embedding of `src/src/W25Q64FV.cpp` / `W25Q64FV.hpp`.

The driver talks to two collaborators that are not part of the repository:
the Arduino core (pins, `millis`, `delay`) and the SPI library.  They are taken
as a parameter, the record `Arduino σ`, whose state `σ` holds the chip and the
clock.  A driver object is a `Device σ`: the C++ fields together with the
hardware state and a log of every call made to the collaborators.

Bytes and addresses are natural numbers; every narrowing conversion of the
source (`uint32_t` to `uint8_t`, the `uint8_t` argument and result of
`SPI.transfer`, `unsigned long` arithmetic on the millisecond counter) is an
explicit `%`.
-/

namespace W25Q64FV

/-- Status return enum of the driver (`W25Q64FV_status_t`). -/
inductive W25Q64FV_status_t
  | W25Q64FV_OK
  | W25Q64FV_COMMUNICATION_FAIL
  | W25Q64FV_BUSY
  | W25Q64FV_TIMEOUT
  | W25Q64FV_NOT_VALID
  deriving DecidableEq, Repr

open W25Q64FV_status_t

/-! ## Instruction set and settings (`W25Q64FV.hpp`) -/

def W25Q64FV_INSTRUCTION_WRITE_ENABLE : Nat := 0x06
def W25Q64FV_INSTRUCTION_WRITE_DISABLE : Nat := 0x04
def W25Q64FV_INSTRUCTION_READ_STATUS_REGISTER_1 : Nat := 0x05
def W25Q64FV_INSTRUCTION_PAGE_PROGRAM : Nat := 0x02
def W25Q64FV_INSTRUCTION_SECTOR_4K_ERASE : Nat := 0x20
def W25Q64FV_INSTRUCTION_BLOCK_32K_ERASE : Nat := 0x52
def W25Q64FV_INSTRUCTION_BLOCK_64K_ERASE : Nat := 0xD8
def W25Q64FV_INSTRUCTION_CHIP_ERASE : Nat := 0xC7
def W25Q64FV_INSTRUCTION_POWER_DOWN : Nat := 0xB9
def W25Q64FV_INSTRUCTION_READ_DATA : Nat := 0x03
def W25Q64FV_INSTRUCTION_RELEASE_POWERDOWN : Nat := 0xAB
def W25Q64FV_INSTRUCTION_MANUFACTURER_DEVICE_ID : Nat := 0x90
def W25Q64FV_INSTRUCTION_JEDEC_ID : Nat := 0x9F
def W25Q64FV_INSTRUCTION_ENABLE_RESET : Nat := 0x66
def W25Q64FV_INSTRUCTION_RESET : Nat := 0x99

def W25Q64FV_SPI_SPEED : Nat := 20000000
def W25Q64FV_DEFAULT_TIMEOUT : Nat := 5000
def W25Q64FV_CHIP_ERASE_TIMEOUT : Nat := 100000

/-! ## The collaborators -/

/-- Pin levels and modes of the Arduino core. -/
def LOW : Nat := 0
def HIGH : Nat := 1
def OUTPUT : Nat := 1
def MSBFIRST : Nat := 1
def SPI_MODE_0 : Nat := 0

/-- Number of values of an `unsigned long` on the Arduino targets (32 bits):
the type of `millis()` and of the timeout arguments. -/
def ULONG_MOD : Nat := 4294967296

/-- Bus settings handed to `SPI.beginTransaction`. -/
structure SPISettings where
  clock : Nat
  bitOrder : Nat
  dataMode : Nat
  deriving DecidableEq, Repr

/-- The Arduino core and SPI library as seen by the driver.  `σ` is the state
of everything outside the driver: the flash chip on the bus and the clock. -/
structure Arduino (σ : Type) where
  pinMode : σ → Int → Nat → σ
  digitalWrite : σ → Int → Nat → σ
  SPI_begin : σ → σ
  SPI_beginTransaction : σ → SPISettings → σ
  SPI_endTransaction : σ → σ
  SPI_transfer : σ → Nat → σ × Nat
  millis : σ → Nat
  delay : σ → Nat → σ
  delayMicroseconds : σ → Nat → σ

/-- One call made by the driver to its collaborators. -/
inductive Event
  | select
  | transfer (out inp : Nat)
  | release
  | millis (v : Nat)
  | delay (ms : Nat)
  | delayMicroseconds (us : Nat)
  deriving DecidableEq, Repr

/-- A driver object: the fields of `class W25Q64FV`, the state of the hardware
it is attached to, and the log of its calls.  The flag `_write_enabled` is read
and written by `W25Q64FV.cpp`; the class declaration in `W25Q64FV.hpp` lists
only `_spi_settings` and `_cs`.  No constructor initialises any field. -/
structure Device (σ : Type) where
  _spi_settings : SPISettings
  _cs : Int
  _write_enabled : Bool
  hw : σ
  trace : List Event

variable {σ : Type}

/-! ## Transport primitives -/

/-- Embeds `select_device`: `SPI.beginTransaction(_spi_settings); digitalWrite(_cs,LOW)`. -/
def select_device (ar : Arduino σ) (d : Device σ) : Device σ :=
  { d with
    hw := ar.digitalWrite (ar.SPI_beginTransaction d.hw d._spi_settings) d._cs LOW
    trace := d.trace ++ [Event.select] }

/-- Embeds `release_device`: `SPI.endTransaction(); digitalWrite(_cs,HIGH)`. -/
def release_device (ar : Arduino σ) (d : Device σ) : Device σ :=
  { d with
    hw := ar.digitalWrite (ar.SPI_endTransaction d.hw) d._cs HIGH
    trace := d.trace ++ [Event.release] }

/-- Embeds `SPI.transfer(data)`: one full-duplex exchange of a `uint8_t`. -/
def SPI_transfer (ar : Arduino σ) (d : Device σ) (data : Nat) : Nat × Device σ :=
  ((ar.SPI_transfer d.hw (data % 256)).2 % 256,
   { d with
     hw := (ar.SPI_transfer d.hw (data % 256)).1
     trace := d.trace ++ [Event.transfer (data % 256) ((ar.SPI_transfer d.hw (data % 256)).2 % 256)] })

/-- Embeds `millis()`: the millisecond counter, an `unsigned long`. -/
def millis (ar : Arduino σ) (d : Device σ) : Nat × Device σ :=
  (ar.millis d.hw % ULONG_MOD,
   { d with trace := d.trace ++ [Event.millis (ar.millis d.hw % ULONG_MOD)] })

/-- Embeds `delay(ms)`. -/
def delay (ar : Arduino σ) (d : Device σ) (ms : Nat) : Device σ :=
  { d with hw := ar.delay d.hw ms, trace := d.trace ++ [Event.delay ms] }

/-- Embeds `delayMicroseconds(us)`. -/
def delayMicroseconds (ar : Arduino σ) (d : Device σ) (us : Nat) : Device σ :=
  { d with hw := ar.delayMicroseconds d.hw us, trace := d.trace ++ [Event.delayMicroseconds us] }

/-! ## Register / command protocol -/

/-- Embeds `W25Q64FV::busy`: one read of status register 1, reduced to bit 0. -/
def busy (ar : Arduino σ) (d : Device σ) : Bool × Device σ :=
  let d1 := select_device ar d
  let d2 := (SPI_transfer ar d1 W25Q64FV_INSTRUCTION_READ_STATUS_REGISTER_1).2
  let r := SPI_transfer ar d2 0
  let d3 := release_device ar r.2
  (r.1 &&& 1 != 0, d3)

/-- Embeds `W25Q64FV::write_command`. -/
def write_command (ar : Arduino σ) (d : Device σ) (command : Nat) :
    W25Q64FV_status_t × Device σ :=
  let b := busy ar d
  if b.1 then (W25Q64FV_BUSY, b.2)
  else
    let d1 := select_device ar b.2
    let d2 := (SPI_transfer ar d1 command).2
    (W25Q64FV_OK, release_device ar d2)

/-- The `while(length > 0)` loop of `write_reg`; `i` is the offset the moving
pointer `buffer` has reached. -/
def write_reg_loop (ar : Arduino σ) (buffer : Nat → Nat) : Nat → Nat → Device σ → Device σ
  | 0, _, d => d
  | length + 1, i, d => write_reg_loop ar buffer length (i + 1) (SPI_transfer ar d (buffer i)).2

/-- Embeds `W25Q64FV::write_reg`. -/
def write_reg (ar : Arduino σ) (d : Device σ) (reg : Nat) (buffer : Nat → Nat) (length : Nat) :
    W25Q64FV_status_t × Device σ :=
  let b := busy ar d
  if b.1 then (W25Q64FV_BUSY, b.2)
  else
    let d1 := select_device ar b.2
    let d2 := (SPI_transfer ar d1 reg).2
    let d3 := write_reg_loop ar buffer length 0 d2
    (W25Q64FV_OK, release_device ar d3)

/-- The `while(length > 0)` loop of `read_reg` (and the `for` loop of
`read_page`): each answer is stored through the moving pointer. -/
def read_reg_loop (ar : Arduino σ) : Nat → Nat → (Nat → Nat) → Device σ → (Nat → Nat) × Device σ
  | 0, _, buffer, d => (buffer, d)
  | length + 1, i, buffer, d =>
    read_reg_loop ar length (i + 1)
      (Function.update buffer i (SPI_transfer ar d 0).1) (SPI_transfer ar d 0).2

/-- Embeds `W25Q64FV::read_reg`.  The third component is the caller's buffer after
the call. -/
def read_reg (ar : Arduino σ) (d : Device σ) (reg : Nat) (buffer : Nat → Nat) (length : Nat) :
    W25Q64FV_status_t × Device σ × (Nat → Nat) :=
  let b := busy ar d
  if b.1 then (W25Q64FV_BUSY, b.2, buffer)
  else
    let d1 := select_device ar b.2
    let d2 := (SPI_transfer ar d1 reg).2
    let r := read_reg_loop ar length 0 buffer d2
    (W25Q64FV_OK, release_device ar r.2, r.1)

/-! ## Busy / wait state machine -/

/-- The `while` loop of `wait_until_free`.  Its test
`busy() & ((millis() - start_time) < max_timeout)` uses the non-short-circuit
`&`: every test polls the chip and samples the clock (here in the written
order), and the subtraction is `unsigned long` arithmetic.  The loop need not
end, so it runs on `fuel`: `none` means the fuel ran out. -/
def wait_until_free_loop (ar : Arduino σ) (start_time max_timeout : Nat) :
    Nat → Device σ → Option (Device σ)
  | 0, _ => none
  | fuel + 1, d =>
    let b := busy ar d
    let m := millis ar b.2
    if b.1 && decide ((m.1 + ULONG_MOD - start_time) % ULONG_MOD < max_timeout) then
      wait_until_free_loop ar start_time max_timeout fuel (delay ar m.2 1)
    else some m.2

/-- Embeds `W25Q64FV::wait_until_free`
(`unsigned long max_timeout = W25Q64FV_DEFAULT_TIMEOUT` in the class). -/
def wait_until_free (ar : Arduino σ) (fuel : Nat) (d : Device σ)
    (max_timeout : Nat := W25Q64FV_DEFAULT_TIMEOUT) : Option (W25Q64FV_status_t × Device σ) :=
  let s := millis ar d
  match wait_until_free_loop ar s.1 max_timeout fuel s.2 with
  | none => none
  | some d1 =>
    let b := busy ar d1
    if b.1 then some (W25Q64FV_TIMEOUT, b.2) else some (W25Q64FV_OK, b.2)

/-! ## Operations -/

/-- Embeds `W25Q64FV::enable_writing`. -/
def enable_writing (ar : Arduino σ) (d : Device σ) : W25Q64FV_status_t × Device σ :=
  let b := busy ar d
  if b.1 then (W25Q64FV_BUSY, b.2)
  else
    let r := write_command ar b.2 W25Q64FV_INSTRUCTION_WRITE_ENABLE
    if r.1 ≠ W25Q64FV_OK then r
    else (W25Q64FV_OK, { r.2 with _write_enabled := true })

/-- Embeds `W25Q64FV::disable_writing`. -/
def disable_writing (ar : Arduino σ) (d : Device σ) : W25Q64FV_status_t × Device σ :=
  let b := busy ar d
  if b.1 then (W25Q64FV_BUSY, b.2)
  else
    let r := write_command ar b.2 W25Q64FV_INSTRUCTION_WRITE_DISABLE
    if r.1 ≠ W25Q64FV_OK then r
    else (W25Q64FV_OK, { r.2 with _write_enabled := false })

/-- The statement `if(!_write_enabled) enable_writing();` shared by
`write_page` and the erase operations: the status of the call is dropped. -/
def auto_enable (ar : Arduino σ) (d : Device σ) : Device σ :=
  if !d._write_enabled then (enable_writing ar d).2 else d

/-- The `for(int i = 0; i < 256; i ++)` loop of `write_page`. -/
def write_page_loop (ar : Arduino σ) (buffer : Nat → Nat) : Nat → Nat → Device σ → Device σ
  | 0, _, d => d
  | n + 1, i, d => write_page_loop ar buffer n (i + 1) (SPI_transfer ar d (buffer i)).2

/-- Embeds `W25Q64FV::write_page`. -/
def write_page (ar : Arduino σ) (d : Device σ) (start_address : Nat) (buffer : Nat → Nat) :
    W25Q64FV_status_t × Device σ :=
  let b := busy ar d
  if b.1 then (W25Q64FV_BUSY, b.2)
  else
    let d0 := auto_enable ar b.2
    let d1 := select_device ar d0
    let d2 := (SPI_transfer ar d1 W25Q64FV_INSTRUCTION_PAGE_PROGRAM).2
    let d3 := (SPI_transfer ar d2 (start_address >>> 16)).2
    let d4 := (SPI_transfer ar d3 (start_address >>> 8)).2
    let d5 := (SPI_transfer ar d4 start_address).2
    let d6 := write_page_loop ar buffer 256 0 d5
    (W25Q64FV_OK, release_device ar d6)

/-- Embeds `W25Q64FV::read_page`.  The third component is the caller's buffer after
the call. -/
def read_page (ar : Arduino σ) (d : Device σ) (start_address : Nat) (buffer : Nat → Nat) :
    W25Q64FV_status_t × Device σ × (Nat → Nat) :=
  let b := busy ar d
  if b.1 then (W25Q64FV_BUSY, b.2, buffer)
  else
    let d1 := select_device ar b.2
    let d2 := (SPI_transfer ar d1 W25Q64FV_INSTRUCTION_READ_DATA).2
    let d3 := (SPI_transfer ar d2 (start_address >>> 16)).2
    let d4 := (SPI_transfer ar d3 (start_address >>> 8)).2
    let d5 := (SPI_transfer ar d4 start_address).2
    let r := read_reg_loop ar 256 0 buffer d5
    (W25Q64FV_OK, release_device ar r.2, r.1)

/-- Embeds `W25Q64FV::erase_chip` (`bool hold = true` in the class, as for the
three addressed erases). -/
def erase_chip (ar : Arduino σ) (fuel : Nat) (d : Device σ) (hold : Bool := true) :
    Option (W25Q64FV_status_t × Device σ) :=
  let b := busy ar d
  if b.1 then some (W25Q64FV_BUSY, b.2)
  else
    let d0 := auto_enable ar b.2
    let r := write_command ar d0 W25Q64FV_INSTRUCTION_CHIP_ERASE
    if r.1 ≠ W25Q64FV_OK then some r
    else if hold then wait_until_free ar fuel r.2 W25Q64FV_CHIP_ERASE_TIMEOUT
    else some (W25Q64FV_OK, r.2)

/-- The local `byte buffer[3]` of the addressed erases:
`buffer[0] = sector_address >> 16; buffer[1] = sector_address >> 8;
buffer[2] = sector_address`, each narrowed to a byte. -/
def address_buffer (sector_address : Nat) : Nat → Nat :=
  Function.update
    (Function.update
      (Function.update (fun _ => 0) 0 ((sector_address >>> 16) % 256))
      1 ((sector_address >>> 8) % 256))
    2 (sector_address % 256)

/-- Embeds `W25Q64FV::erase_sector`. -/
def erase_sector (ar : Arduino σ) (fuel : Nat) (d : Device σ) (sector_address : Nat)
    (hold : Bool := true) : Option (W25Q64FV_status_t × Device σ) :=
  let b := busy ar d
  if b.1 then some (W25Q64FV_BUSY, b.2)
  else
    let d0 := auto_enable ar b.2
    let r := write_reg ar d0 W25Q64FV_INSTRUCTION_SECTOR_4K_ERASE (address_buffer sector_address) 3
    if r.1 ≠ W25Q64FV_OK then some r
    else if hold then wait_until_free ar fuel r.2
    else some (W25Q64FV_OK, r.2)

/-- Embeds `W25Q64FV::erase_block_32`. -/
def erase_block_32 (ar : Arduino σ) (fuel : Nat) (d : Device σ) (sector_address : Nat)
    (hold : Bool := true) : Option (W25Q64FV_status_t × Device σ) :=
  let b := busy ar d
  if b.1 then some (W25Q64FV_BUSY, b.2)
  else
    let d0 := auto_enable ar b.2
    let r := write_reg ar d0 W25Q64FV_INSTRUCTION_BLOCK_32K_ERASE (address_buffer sector_address) 3
    if r.1 ≠ W25Q64FV_OK then some r
    else if hold then wait_until_free ar fuel r.2
    else some (W25Q64FV_OK, r.2)

/-- Embeds `W25Q64FV::erase_block_64`. -/
def erase_block_64 (ar : Arduino σ) (fuel : Nat) (d : Device σ) (sector_address : Nat)
    (hold : Bool := true) : Option (W25Q64FV_status_t × Device σ) :=
  let b := busy ar d
  if b.1 then some (W25Q64FV_BUSY, b.2)
  else
    let d0 := auto_enable ar b.2
    let r := write_reg ar d0 W25Q64FV_INSTRUCTION_BLOCK_64K_ERASE (address_buffer sector_address) 3
    if r.1 ≠ W25Q64FV_OK then some r
    else if hold then wait_until_free ar fuel r.2
    else some (W25Q64FV_OK, r.2)

/-- Embeds `W25Q64FV::get_jedec`.  The last three components are the bytes behind
the three output pointers after the call; the arguments `manufacture_id`,
`memory_type`, `capacity` are the bytes behind them before it.  The local
`byte buffer[3]` is read only after `read_reg` has overwritten all of it, so
its initial content is immaterial and taken as zero. -/
def get_jedec (ar : Arduino σ) (d : Device σ) (manufacture_id memory_type capacity : Nat) :
    W25Q64FV_status_t × Device σ × Nat × Nat × Nat :=
  let b := busy ar d
  if b.1 then (W25Q64FV_BUSY, b.2, manufacture_id, memory_type, capacity)
  else
    let r := read_reg ar b.2 W25Q64FV_INSTRUCTION_JEDEC_ID (fun _ => 0) 3
    if r.1 ≠ W25Q64FV_OK then (r.1, r.2.1, manufacture_id, memory_type, capacity)
    else (W25Q64FV_OK, r.2.1, r.2.2 0, r.2.2 1, r.2.2 2)

/-- Embeds `W25Q64FV::reset`.  The status of the second command is stored and never
looked at. -/
def reset (ar : Arduino σ) (d : Device σ) : W25Q64FV_status_t × Device σ :=
  let b := busy ar d
  if b.1 then (W25Q64FV_BUSY, b.2)
  else
    let r := write_command ar b.2 W25Q64FV_INSTRUCTION_ENABLE_RESET
    if r.1 ≠ W25Q64FV_OK then r
    else
      let r2 := write_command ar r.2 W25Q64FV_INSTRUCTION_RESET
      (W25Q64FV_OK, delayMicroseconds ar r2.2 35)

/-- Embeds `W25Q64FV::power_down`. -/
def power_down (ar : Arduino σ) (d : Device σ) : W25Q64FV_status_t × Device σ :=
  let b := busy ar d
  if b.1 then (W25Q64FV_BUSY, b.2)
  else
    let r := write_command ar b.2 W25Q64FV_INSTRUCTION_POWER_DOWN
    if r.1 ≠ W25Q64FV_OK then r
    else (W25Q64FV_OK, delayMicroseconds ar r.2 10)

/-- Embeds `W25Q64FV::release_power_down`. -/
def release_power_down (ar : Arduino σ) (d : Device σ) : W25Q64FV_status_t × Device σ :=
  let d1 := select_device ar d
  let d2 := (SPI_transfer ar d1 W25Q64FV_INSTRUCTION_RELEASE_POWERDOWN).2
  let d3 := release_device ar d2
  (W25Q64FV_OK, delayMicroseconds ar d3 10)

/-- First statements of `begin`: store the pin, make it an output held high,
start the SPI library and store the bus settings. -/
def begin_setup (ar : Arduino σ) (d : Device σ) (cs_pin : Int) : Device σ :=
  { d with
    _cs := cs_pin
    hw := ar.SPI_begin (ar.digitalWrite (ar.pinMode d.hw cs_pin OUTPUT) cs_pin HIGH)
    _spi_settings := ⟨W25Q64FV_SPI_SPEED, MSBFIRST, SPI_MODE_0⟩ }

/-- Embeds `W25Q64FV::begin`.  `buffer` is the content of the uninitialised local
`uint8_t buffer[5]`; the status of `read_reg` is dropped. -/
def begin (ar : Arduino σ) (d : Device σ) (cs_pin : Int) (buffer : Nat → Nat) :
    W25Q64FV_status_t × Device σ :=
  let d0 := begin_setup ar d cs_pin
  let r := read_reg ar d0 W25Q64FV_INSTRUCTION_MANUFACTURER_DEVICE_ID buffer 5
  if r.2.2 4 = 0 then (W25Q64FV_COMMUNICATION_FAIL, r.2.1)
  else reset ar r.2.1

/-! ## Reading the log -/

/-- Bus transactions of a log: the bytes sent between each `select` and the
`release` that closes it.  The first argument is the transaction that is open,
if any.  The result is `none` when the log is not a sequence of well-bracketed
transactions (a byte exchanged while the chip is not selected, a `select`
inside a transaction, a `release` outside one, a transaction left open).
Clock and delay calls are not bus activity and are skipped. -/
def transactions_from : Option (List Nat) → List Event → Option (List (List Nat))
  | none, [] => some []
  | some _, [] => none
  | none, Event.select :: es => transactions_from (some []) es
  | some _, Event.select :: _ => none
  | some cur, Event.transfer out _ :: es => transactions_from (some (cur ++ [out])) es
  | none, Event.transfer _ _ :: _ => none
  | some cur, Event.release :: es => (transactions_from none es).map (fun t => cur :: t)
  | none, Event.release :: _ => none
  | st, Event.millis _ :: es => transactions_from st es
  | st, Event.delay _ :: es => transactions_from st es
  | st, Event.delayMicroseconds _ :: es => transactions_from st es

/-- Bus transactions of a complete log. -/
def transactions (es : List Event) : Option (List (List Nat)) :=
  transactions_from none es

/-- Between the states `d` and `d'` the driver only added to the log, and what
it added is exactly the bus transactions `txs`, in this order. -/
def Emits (d d' : Device σ) (txs : List (List Nat)) : Prop :=
  ∃ evs, d'.trace = d.trace ++ evs ∧ transactions evs = some txs

/-- Number of calls to the transport (`select`, `transfer`, `release`) in a log. -/
def transport_calls : List Event → Nat
  | [] => 0
  | Event.select :: es => transport_calls es + 1
  | Event.transfer _ _ :: es => transport_calls es + 1
  | Event.release :: es => transport_calls es + 1
  | _ :: es => transport_calls es

/-- The clock samples (`millis()` results) of a log, oldest first. -/
def samples : List Event → List Nat
  | [] => []
  | Event.millis v :: es => v :: samples es
  | _ :: es => samples es

/-- The status-register-1 read: opcode `0x05` and one dummy byte. -/
def status_read : List Nat := [0x05, 0]

/-- The log of a run of exchanges `evs` carries the bytes `outs`: inside an
open transaction it extends the transaction by exactly these bytes. -/
def Sends (evs : List Event) (outs : List Nat) : Prop :=
  ∀ cur rest, transactions_from (some cur) (evs ++ rest)
    = transactions_from (some (cur ++ outs)) rest

/-! ## Concrete hardware used to exercise the driver -/

/-- A driver object as the demonstration program creates it (`W25Q64FV flash;`
at namespace scope, hence zero-initialised), attached to hardware `hw`. -/
def new_device (hw : σ) : Device σ :=
  { _spi_settings := ⟨0, 0, 0⟩, _cs := 0, _write_enabled := false, hw := hw, trace := [] }

/-- A chip that answers every exchange with `0x01`, so that every status read
reports busy, next to a clock (the state, in milliseconds) that only `delay`
advances, by the time asked for. -/
def stuck_chip : Arduino Nat where
  pinMode s _ _ := s
  digitalWrite s _ _ := s
  SPI_begin s := s
  SPI_beginTransaction s _ := s
  SPI_endTransaction s := s
  SPI_transfer s _ := (s, 1)
  millis s := s
  delay s ms := s + ms
  delayMicroseconds s _ := s

/-- A chip that plays back a script: the state is the list of bytes it will
answer, one per exchange, and `0x00` once the list is used up. -/
def scripted_chip : Arduino (List Nat) where
  pinMode s _ _ := s
  digitalWrite s _ _ := s
  SPI_begin s := s
  SPI_beginTransaction s _ := s
  SPI_endTransaction s := s
  SPI_transfer s _ := (s.tail, s.headD 0)
  millis _ := 0
  delay s _ := s
  delayMicroseconds s _ := s

/-- What the chip answers to the three dummy bytes that follow the opcode
`0x9F` in a transaction begun in state `d`. -/
def jedec_answers (ar : Arduino σ) (d : Device σ) : Nat × Nat × Nat :=
  let x0 := SPI_transfer ar (select_device ar d) W25Q64FV_INSTRUCTION_JEDEC_ID
  let x1 := SPI_transfer ar x0.2 0
  let x2 := SPI_transfer ar x1.2 0
  let x3 := SPI_transfer ar x2.2 0
  (x1.1, x2.1, x3.1)

/-- What the chip answers to the five dummy bytes that follow the opcode
`0x90` in a transaction begun in state `d`. -/
def id_answers (ar : Arduino σ) (d : Device σ) : List Nat :=
  let x0 := SPI_transfer ar (select_device ar d) W25Q64FV_INSTRUCTION_MANUFACTURER_DEVICE_ID
  let x1 := SPI_transfer ar x0.2 0
  let x2 := SPI_transfer ar x1.2 0
  let x3 := SPI_transfer ar x2.2 0
  let x4 := SPI_transfer ar x3.2 0
  let x5 := SPI_transfer ar x4.2 0
  [x1.1, x2.1, x3.1, x4.1, x5.1]

/-- The same busy chip next to a clock on which `delay(ms)` takes twice the
time asked for. -/
def slow_chip : Arduino Nat where
  pinMode s _ _ := s
  digitalWrite s _ _ := s
  SPI_begin s := s
  SPI_beginTransaction s _ := s
  SPI_endTransaction s := s
  SPI_transfer s _ := (s, 1)
  millis s := s
  delay s ms := s + 2 * ms
  delayMicroseconds s _ := s

/-- Opcodes of the commands that change the chip: page program, the four
erases, power-down. -/
def mutating_opcodes : List Nat := [0x02, 0x20, 0x52, 0xD8, 0xC7, 0xB9]

/-- The busy invariant read off a log.  `last` is the answer of the latest
status-register-1 read (`some true` for busy), `cur` the exchanges of the open
transaction.  The log passes when every transaction whose first byte is a
mutating opcode starts while the latest status read exists and had bit 0
clear. -/
def busy_invariant_from (last : Option Bool) (cur : Option (List (Nat × Nat))) :
    List Event → Bool
  | [] => true
  | Event.select :: es => busy_invariant_from last (some []) es
  | Event.transfer o i :: es =>
    match cur with
    | some [] =>
      (if o ∈ mutating_opcodes then last == some false else true)
        && busy_invariant_from last (some [(o, i)]) es
    | some c => busy_invariant_from last (some (c ++ [(o, i)])) es
    | none => busy_invariant_from last none es
  | Event.release :: es =>
    match cur with
    | some [(0x05, _), (_, r)] => busy_invariant_from (some (r &&& 1 != 0)) none es
    | _ => busy_invariant_from last none es
  | _ :: es => busy_invariant_from last cur es

/-- The busy invariant of a complete log. -/
def busy_invariant (es : List Event) : Bool :=
  busy_invariant_from none none es

/-- State of the simulated flash chip: the array (address to byte) and the
bytes received since chip select went low. -/
structure Flash where
  mem : Nat → Nat
  rx : List Nat

/-- The address carried by three bytes, high byte first. -/
def flash_address (a b c : Nat) : Nat := a * 65536 + b * 256 + c

/-- Chip select going high: a page-program transaction (`0x02`, three address
bytes, data) stores its data bytes at the transmitted address. -/
def Flash.commit (s : Flash) : Flash :=
  match s.rx with
  | 0x02 :: a :: b :: c :: data =>
    { mem := fun x =>
        if flash_address a b c ≤ x ∧ x < flash_address a b c + data.length then
          data.getD (x - flash_address a b c) 0
        else s.mem x
      rx := [] }
  | _ => { s with rx := [] }

/-- The byte the chip puts on the bus during the next exchange: in a read-data
transaction (`0x03`, three address bytes) the stored bytes from the
transmitted address on; `0x00` otherwise, in particular as status register 1,
so the chip never reports busy. -/
def Flash.answer (s : Flash) : Nat :=
  match s.rx with
  | 0x03 :: a :: b :: c :: rest => s.mem (flash_address a b c + rest.length)
  | _ => 0

/-- Modelled from the spec: the simulated chip of the round-trip scenario, one
that stores the bytes of a page-program transaction at the transmitted address,
returns them on a read-data transaction and never reports busy.  The chip is
hardware, not code of the repository. -/
def flash_chip : Arduino Flash where
  pinMode s _ _ := s
  digitalWrite s _ level := if level = LOW then { s with rx := [] } else s.commit
  SPI_begin s := s
  SPI_beginTransaction s _ := s
  SPI_endTransaction s := s
  SPI_transfer s out := ({ s with rx := s.rx ++ [out] }, s.answer)
  millis _ := 0
  delay s _ := s
  delayMicroseconds s _ := s

/-- A freshly erased array: every byte is `0xFF`. -/
def erased : Flash := { mem := fun _ => 0xFF, rx := [] }

/-! ## Sequences of calls -/

/-- One call of a public method of the driver, with its arguments.  For
`read_page` and `get_jedec` the arguments are the contents of the caller's
memory before the call, for `begin` the content of its uninitialised local
buffer. -/
inductive Op
  | begin (cs_pin : Int) (buffer : Nat → Nat)
  | enable_writing
  | disable_writing
  | write_page (start_address : Nat) (buffer : Nat → Nat)
  | read_page (start_address : Nat) (buffer : Nat → Nat)
  | erase_sector (sector_address : Nat) (hold : Bool)
  | erase_block_32 (sector_address : Nat) (hold : Bool)
  | erase_block_64 (sector_address : Nat) (hold : Bool)
  | erase_chip (hold : Bool)
  | get_jedec (manufacture_id memory_type capacity : Nat)
  | busy
  | wait_until_free (max_timeout : Nat)
  | reset
  | power_down
  | release_power_down

/-- The driver object after one call; `none` when a wait inside the call runs
out of fuel. -/
def call (ar : Arduino σ) (fuel : Nat) : Op → Device σ → Option (Device σ)
  | Op.begin cs_pin buffer, d => some (begin ar d cs_pin buffer).2
  | Op.enable_writing, d => some (enable_writing ar d).2
  | Op.disable_writing, d => some (disable_writing ar d).2
  | Op.write_page a buffer, d => some (write_page ar d a buffer).2
  | Op.read_page a buffer, d => some (read_page ar d a buffer).2.1
  | Op.erase_sector a hold, d => (erase_sector ar fuel d a hold).map Prod.snd
  | Op.erase_block_32 a hold, d => (erase_block_32 ar fuel d a hold).map Prod.snd
  | Op.erase_block_64 a hold, d => (erase_block_64 ar fuel d a hold).map Prod.snd
  | Op.erase_chip hold, d => (erase_chip ar fuel d hold).map Prod.snd
  | Op.get_jedec m t c, d => some (get_jedec ar d m t c).2.1
  | Op.busy, d => some (busy ar d).2
  | Op.wait_until_free t, d => (wait_until_free ar fuel d t).map Prod.snd
  | Op.reset, d => some (reset ar d).2
  | Op.power_down, d => some (power_down ar d).2
  | Op.release_power_down, d => some (release_power_down ar d).2

/-- The driver object after a sequence of calls, made one after the other. -/
def run (ar : Arduino σ) (fuel : Nat) : List Op → Device σ → Option (Device σ)
  | [], d => some d
  | op :: ops, d => (call ar fuel op d).bind (run ar fuel ops)

/-- The call is `disable_writing`. -/
def Op.is_disable_writing : Op → Bool
  | Op.disable_writing => true
  | _ => false

/-- The call is `write_page` or one of the four erases. -/
def Op.is_program_or_erase : Op → Bool
  | Op.write_page _ _ => true
  | Op.erase_sector _ _ => true
  | Op.erase_block_32 _ _ => true
  | Op.erase_block_64 _ _ => true
  | Op.erase_chip _ => true
  | _ => false

/-- The same call with `hold = false`: what an erase does up to and including
its command. -/
def Op.without_hold : Op → Op
  | Op.erase_sector a _ => Op.erase_sector a false
  | Op.erase_block_32 a _ => Op.erase_block_32 a false
  | Op.erase_block_64 a _ => Op.erase_block_64 a false
  | Op.erase_chip _ => Op.erase_chip false
  | op => op

/-- No transaction of the list is a write-enable command: none has `0x06` as
its opcode (first byte). -/
def no_write_enable (txs : List (List Nat)) : Prop :=
  ∀ tx ∈ txs, tx.head? ≠ some W25Q64FV_INSTRUCTION_WRITE_ENABLE

/-- What an erase puts on the bus when its command is sent.  `erase hold` is
the call, `command` the bytes of its command transaction, `timeout` the
timeout of its wait.
* Without hold the call returns OK and its bus transactions are `pre` and then
  `command`, where `pre` holds only status reads and write-enable commands: two
  status reads when the flag is set; three status reads, `0x06` and one more
  status read when the flag is clear and `enable_writing` finds the chip free.
* With hold the call is `wait_until_free` from the state the command left;
  whenever it returns, it has added nothing but status reads (`post`); when
  the chip is free at the two polls of the wait, it returns OK and has added
  exactly two status reads. -/
def erase_sends_once (ar : Arduino σ) (fuel : Nat) (d : Device σ) (command : List Nat)
    (timeout : Nat) (erase : Bool → Option (W25Q64FV_status_t × Device σ)) : Prop :=
  ∃ d' pre,
    erase false = some (W25Q64FV_OK, d') ∧
    Emits d d' (pre ++ [command]) ∧
    (∀ tx ∈ pre, tx = status_read ∨ tx = [0x06]) ∧
    (d._write_enabled = true → pre = [status_read, status_read]) ∧
    (d._write_enabled = false → (busy ar (busy ar d).2).1 = false →
      (busy ar (busy ar (busy ar d).2).2).1 = false →
      pre = [status_read, status_read, status_read, [0x06], status_read]) ∧
    erase true = wait_until_free ar fuel d' timeout ∧
    (∀ res, erase true = some res →
      ∃ post, Emits d res.2 (pre ++ [command] ++ post) ∧ ∀ tx ∈ post, tx = status_read) ∧
    ((busy ar (millis ar d').2).1 = false →
      (busy ar (millis ar (busy ar (millis ar d').2).2).2).1 = false → 0 < fuel →
      ∃ d'', erase true = some (W25Q64FV_OK, d'') ∧
        Emits d d'' (pre ++ [command] ++ [status_read, status_read]))

/-! # Theorems -/

/-! ## Basic facts about the primitives -/

section basic

variable (ar : Arduino σ) (d : Device σ)

@[simp] theorem select_device_trace : (select_device ar d).trace = d.trace ++ [Event.select] := rfl
@[simp] theorem select_device_we : (select_device ar d)._write_enabled = d._write_enabled := rfl
@[simp] theorem select_device_cs : (select_device ar d)._cs = d._cs := rfl
@[simp] theorem select_device_settings :
    (select_device ar d)._spi_settings = d._spi_settings := rfl
@[simp] theorem release_device_trace :
    (release_device ar d).trace = d.trace ++ [Event.release] := rfl
@[simp] theorem release_device_we : (release_device ar d)._write_enabled = d._write_enabled := rfl
@[simp] theorem release_device_cs : (release_device ar d)._cs = d._cs := rfl
@[simp] theorem release_device_settings :
    (release_device ar d)._spi_settings = d._spi_settings := rfl
@[simp] theorem SPI_transfer_trace (x : Nat) :
    (SPI_transfer ar d x).2.trace
      = d.trace ++ [Event.transfer (x % 256) (SPI_transfer ar d x).1] := rfl
@[simp] theorem SPI_transfer_we (x : Nat) :
    (SPI_transfer ar d x).2._write_enabled = d._write_enabled := rfl
@[simp] theorem SPI_transfer_cs (x : Nat) : (SPI_transfer ar d x).2._cs = d._cs := rfl
@[simp] theorem SPI_transfer_settings (x : Nat) :
    (SPI_transfer ar d x).2._spi_settings = d._spi_settings := rfl
@[simp] theorem millis_trace :
    (millis ar d).2.trace = d.trace ++ [Event.millis (millis ar d).1] := rfl
@[simp] theorem millis_we : (millis ar d).2._write_enabled = d._write_enabled := rfl
@[simp] theorem millis_hw : (millis ar d).2.hw = d.hw := rfl
@[simp] theorem delay_trace (n : Nat) : (delay ar d n).trace = d.trace ++ [Event.delay n] := rfl
@[simp] theorem delay_we (n : Nat) : (delay ar d n)._write_enabled = d._write_enabled := rfl
@[simp] theorem delayMicroseconds_trace (n : Nat) :
    (delayMicroseconds ar d n).trace = d.trace ++ [Event.delayMicroseconds n] := rfl
@[simp] theorem delayMicroseconds_we (n : Nat) :
    (delayMicroseconds ar d n)._write_enabled = d._write_enabled := rfl

theorem SPI_transfer_lt (x : Nat) : (SPI_transfer ar d x).1 < 256 :=
  Nat.mod_lt _ (by decide)

end basic

theorem Sends.nil : Sends [] [] := by
  intro cur rest; simp

theorem Sends.transfer (o i : Nat) : Sends [Event.transfer o i] [o] := by
  intro cur rest; simp [transactions_from]

theorem Sends.append {a b : List Event} {x y : List Nat} (ha : Sends a x) (hb : Sends b y) :
    Sends (a ++ b) (x ++ y) := by
  intro cur rest
  rw [List.append_assoc, ha, hb, List.append_assoc]

theorem transactions_framed {evs : List Event} {outs : List Nat} (h : Sends evs outs) :
    transactions (Event.select :: (evs ++ [Event.release])) = some [outs] := by
  simp [transactions, transactions_from, h [] [Event.release]]

theorem transactions_from_append (a b : List Event) (x y : List (List Nat)) :
    ∀ cur, transactions_from cur a = some x → transactions b = some y →
      transactions_from cur (a ++ b) = some (x ++ y) := by
  induction a generalizing x with
  | nil =>
    intro cur h hb
    cases cur with
    | none => simp [transactions_from] at h; subst h; simpa [transactions] using hb
    | some c => simp [transactions_from] at h
  | cons e es ih =>
    intro cur h hb
    cases e with
    | select =>
      cases cur with
      | none => simp only [transactions_from, List.cons_append] at h ⊢; exact ih _ _ h hb
      | some c => simp [transactions_from] at h
    | transfer o i =>
      cases cur with
      | none => simp [transactions_from] at h
      | some c => simp only [transactions_from, List.cons_append] at h ⊢; exact ih _ _ h hb
    | release =>
      cases cur with
      | none => simp [transactions_from] at h
      | some c =>
        simp only [transactions_from, List.cons_append] at h ⊢
        cases hq : transactions_from none es with
        | none => simp [hq] at h
        | some q =>
          simp [hq] at h
          subst h
          simp [ih q none hq hb]
    | millis v => simp only [transactions_from, List.cons_append] at h ⊢; exact ih _ _ h hb
    | delay v => simp only [transactions_from, List.cons_append] at h ⊢; exact ih _ _ h hb
    | delayMicroseconds v =>
      simp only [transactions_from, List.cons_append] at h ⊢; exact ih _ _ h hb

theorem transactions_append {a b : List Event} {x y : List (List Nat)}
    (ha : transactions a = some x) (hb : transactions b = some y) :
    transactions (a ++ b) = some (x ++ y) :=
  transactions_from_append a b x y none ha hb

theorem Emits.refl (d : Device σ) : Emits d d [] :=
  ⟨[], by simp, rfl⟩

theorem Emits.trans {d1 d2 d3 : Device σ} {x y : List (List Nat)}
    (h1 : Emits d1 d2 x) (h2 : Emits d2 d3 y) : Emits d1 d3 (x ++ y) := by
  obtain ⟨a, ha, hx⟩ := h1
  obtain ⟨b, hb, hy⟩ := h2
  exact ⟨a ++ b, by rw [hb, ha, List.append_assoc], transactions_append hx hy⟩

/-! ## Facts about `busy` and the single-transaction commands -/

section ops

variable (ar : Arduino σ) (d : Device σ)

theorem busy_trace : ∃ r0 r1, (busy ar d).2.trace
    = d.trace ++ [Event.select, Event.transfer 0x05 r0, Event.transfer 0 r1, Event.release] :=
  ⟨(SPI_transfer ar (select_device ar d) 5).1,
    (SPI_transfer ar (SPI_transfer ar (select_device ar d) 5).2 0).1,
    by simp [busy, W25Q64FV_INSTRUCTION_READ_STATUS_REGISTER_1]⟩

@[simp] theorem busy_we : (busy ar d).2._write_enabled = d._write_enabled := rfl
@[simp] theorem busy_cs : (busy ar d).2._cs = d._cs := rfl
@[simp] theorem busy_settings : (busy ar d).2._spi_settings = d._spi_settings := rfl

theorem busy_emits : Emits d (busy ar d).2 [status_read] := by
  obtain ⟨r0, r1, h⟩ := busy_trace ar d
  exact ⟨_, h, by simp [transactions, transactions_from, status_read]⟩

theorem busy_transport_calls :
    ∃ evs, (busy ar d).2.trace = d.trace ++ evs ∧ transport_calls evs = 4 := by
  obtain ⟨r0, r1, h⟩ := busy_trace ar d
  exact ⟨_, h, by simp [transport_calls]⟩

/-- A single-byte command frame, as sent by `write_command` after its check. -/
theorem command_frame_emits (c : Nat) :
    Emits d (release_device ar (SPI_transfer ar (select_device ar d) c).2) [[c % 256]] :=
  ⟨[Event.select, Event.transfer (c % 256) (SPI_transfer ar (select_device ar d) c).1,
     Event.release], by simp, by simp [transactions, transactions_from]⟩

theorem write_command_busy (c : Nat) (h : (busy ar d).1 = true) :
    write_command ar d c = (W25Q64FV_BUSY, (busy ar d).2) := by
  simp [write_command, h]

theorem write_command_free (c : Nat) (h : (busy ar d).1 = false) :
    (write_command ar d c).1 = W25Q64FV_OK ∧
    (write_command ar d c).2._write_enabled = d._write_enabled ∧
    Emits d (write_command ar d c).2 [status_read, [c % 256]] := by
  refine ⟨by simp [write_command, h], by simp [write_command, h], ?_⟩
  have := (busy_emits ar d).trans (command_frame_emits ar (busy ar d).2 c)
  simpa [write_command, h] using this

theorem write_command_we (c : Nat) :
    (write_command ar d c).2._write_enabled = d._write_enabled := by
  cases h : (busy ar d).1 <;> simp [write_command, h]

end ops

/-! ## C1 -/

/-- C1, as the code has it: an operation invoked while the chip is busy
(`write_page`, the four erases, `power_down`, `write_reg`, `read_reg`) returns
BUSY, and all it has done is the status-register-1 read that told it so: the
resulting driver state is the one `busy()` leaves, the only bus transaction of
the invocation is `0x05, 0x00` (one `select`, two exchanges, one `release`),
the write-enable flag is untouched and `read_reg` leaves the caller's buffer
alone. -/
theorem busy_call_only_reads_status (ar : Arduino σ) (d : Device σ)
    (start_address reg length fuel : Nat) (buffer : Nat → Nat) (hold : Bool)
    (h : (busy ar d).1 = true) :
    write_page ar d start_address buffer = (W25Q64FV_BUSY, (busy ar d).2) ∧
    erase_sector ar fuel d start_address hold = some (W25Q64FV_BUSY, (busy ar d).2) ∧
    erase_block_32 ar fuel d start_address hold = some (W25Q64FV_BUSY, (busy ar d).2) ∧
    erase_block_64 ar fuel d start_address hold = some (W25Q64FV_BUSY, (busy ar d).2) ∧
    erase_chip ar fuel d hold = some (W25Q64FV_BUSY, (busy ar d).2) ∧
    power_down ar d = (W25Q64FV_BUSY, (busy ar d).2) ∧
    write_reg ar d reg buffer length = (W25Q64FV_BUSY, (busy ar d).2) ∧
    read_reg ar d reg buffer length = (W25Q64FV_BUSY, (busy ar d).2, buffer) ∧
    Emits d (busy ar d).2 [status_read] ∧
    (∃ evs, (busy ar d).2.trace = d.trace ++ evs ∧ transport_calls evs = 4) ∧
    (busy ar d).2._write_enabled = d._write_enabled := by
  refine ⟨?_, ?_, ?_, ?_, ?_, ?_, ?_, ?_, busy_emits ar d, busy_transport_calls ar d, rfl⟩
  · simp [write_page, h]
  · simp [erase_sector, h]
  · simp [erase_block_32, h]
  · simp [erase_block_64, h]
  · simp [erase_chip, h]
  · simp [power_down, h]
  · simp [write_reg, h]
  · simp [read_reg, h]

/-- C1 at a concrete chip that reports busy. -/
theorem busy_call_only_reads_status_witness :
    (busy stuck_chip (new_device 0)).1 = true ∧
    write_reg stuck_chip (new_device 0) 0x20 (address_buffer 0x1000) 3
      = (W25Q64FV_BUSY, (busy stuck_chip (new_device 0)).2) ∧
    Emits (new_device 0) (busy stuck_chip (new_device 0)).2 [status_read] :=
  have h := busy_call_only_reads_status stuck_chip (new_device 0) 0x1000 0x20 3 0
    (address_buffer 0x1000) true (by decide)
  ⟨by decide, h.2.2.2.2.2.2.1, h.2.2.2.2.2.2.2.2.1⟩

/-- C1 as stated fails: on a busy chip `write_reg` does return BUSY, but the
invocation has made four transport calls (the status read), not zero. -/
theorem busy_call_zero_transactions_counterexample :
    ¬ ((busy stuck_chip (new_device 0)).1 = true →
        (write_reg stuck_chip (new_device 0) 0x20 (address_buffer 0x1000) 3).1 = W25Q64FV_BUSY ∧
        transport_calls
          (write_reg stuck_chip (new_device 0) 0x20 (address_buffer 0x1000) 3).2.trace = 0) := by
  decide

/-! ## Frames, loops and the automatic write-enable -/

section frames

variable (ar : Arduino σ)

/-- A transaction: from `select_device` to `release_device` with a run of
exchanges in between. -/
theorem frame_emits (d d' : Device σ) (evs : List Event) (outs : List Nat)
    (ht : d'.trace = (select_device ar d).trace ++ evs) (hs : Sends evs outs) :
    Emits d (release_device ar d') [outs] := by
  refine ⟨Event.select :: (evs ++ [Event.release]), ?_, transactions_framed hs⟩
  simp [ht]

theorem write_page_loop_spec (buffer : Nat → Nat) (n : Nat) :
    ∀ (i : Nat) (d : Device σ), ∃ evs,
      (write_page_loop ar buffer n i d).trace = d.trace ++ evs ∧
      Sends evs ((List.range' i n).map (fun k => buffer k % 256)) ∧
      (write_page_loop ar buffer n i d)._write_enabled = d._write_enabled := by
  induction n with
  | zero => intro i d; exact ⟨[], by simp [write_page_loop], Sends.nil, rfl⟩
  | succ n ih =>
    intro i d
    obtain ⟨evs, h1, h2, h3⟩ := ih (i + 1) (SPI_transfer ar d (buffer i)).2
    refine ⟨Event.transfer (buffer i % 256) (SPI_transfer ar d (buffer i)).1 :: evs, ?_, ?_, ?_⟩
    · simp [write_page_loop, h1]
    · have := Sends.append (Sends.transfer (buffer i % 256) (SPI_transfer ar d (buffer i)).1) h2
      simpa [List.range'] using this
    · simp [write_page_loop, h3]

theorem write_reg_loop_spec (buffer : Nat → Nat) (n : Nat) :
    ∀ (i : Nat) (d : Device σ), ∃ evs,
      (write_reg_loop ar buffer n i d).trace = d.trace ++ evs ∧
      Sends evs ((List.range' i n).map (fun k => buffer k % 256)) ∧
      (write_reg_loop ar buffer n i d)._write_enabled = d._write_enabled := by
  induction n with
  | zero => intro i d; exact ⟨[], by simp [write_reg_loop], Sends.nil, rfl⟩
  | succ n ih =>
    intro i d
    obtain ⟨evs, h1, h2, h3⟩ := ih (i + 1) (SPI_transfer ar d (buffer i)).2
    refine ⟨Event.transfer (buffer i % 256) (SPI_transfer ar d (buffer i)).1 :: evs, ?_, ?_, ?_⟩
    · simp [write_reg_loop, h1]
    · have := Sends.append (Sends.transfer (buffer i % 256) (SPI_transfer ar d (buffer i)).1) h2
      simpa [List.range'] using this
    · simp [write_reg_loop, h3]

theorem enable_writing_busy (d : Device σ) (h : (busy ar d).1 = true) :
    enable_writing ar d = (W25Q64FV_BUSY, (busy ar d).2) := by
  simp [enable_writing, h]

/-- What `enable_writing` does on the bus: status reads and at most one
write-enable command; when both of its status reads find the chip free it is
exactly two status reads and the command, and the flag is set. -/
theorem enable_writing_emits (d : Device σ) :
    ∃ pre, Emits d (enable_writing ar d).2 pre ∧
      (∀ tx ∈ pre, tx = status_read ∨ tx = [0x06]) ∧
      ((busy ar d).1 = false → (busy ar (busy ar d).2).1 = false →
        pre = [status_read, status_read, [0x06]] ∧
        (enable_writing ar d).1 = W25Q64FV_OK ∧
        (enable_writing ar d).2._write_enabled = true) := by
  cases h1 : (busy ar d).1 with
  | true =>
    refine ⟨[status_read], ?_, by simp, by simp⟩
    rw [enable_writing_busy ar d h1]; exact busy_emits ar d
  | false =>
    cases h2 : (busy ar (busy ar d).2).1 with
    | true =>
      refine ⟨[status_read, status_read], ?_, by simp, by simp⟩
      have := (busy_emits ar d).trans (busy_emits ar (busy ar d).2)
      simpa [enable_writing, h1, write_command_busy ar _ _ h2] using this
    | false =>
      obtain ⟨hs, hw, he⟩ := write_command_free ar (busy ar d).2 6 h2
      refine ⟨[status_read, status_read, [0x06]], ?_, by simp, fun _ _ => ⟨rfl, ?_, ?_⟩⟩
      · have := (busy_emits ar d).trans he
        simpa [enable_writing, h1, hs, W25Q64FV_INSTRUCTION_WRITE_ENABLE, Emits] using this
      · simp [enable_writing, h1, hs, W25Q64FV_INSTRUCTION_WRITE_ENABLE]
      · simp [enable_writing, h1, hs, W25Q64FV_INSTRUCTION_WRITE_ENABLE]

/-- Bus activity of the statement `if(!_write_enabled) enable_writing();`. -/
theorem auto_enable_emits (d : Device σ) :
    ∃ pre, Emits d (auto_enable ar d) pre ∧
      (∀ tx ∈ pre, tx = status_read ∨ tx = [0x06]) ∧
      (d._write_enabled = true → pre = []) ∧
      (d._write_enabled = false → (busy ar d).1 = false → (busy ar (busy ar d).2).1 = false →
        pre = [status_read, status_read, [0x06]]) := by
  cases hw : d._write_enabled with
  | true => exact ⟨[], by simpa [auto_enable, hw] using Emits.refl d, by simp, by simp, by simp⟩
  | false =>
    obtain ⟨pre, h1, h2, h3⟩ := enable_writing_emits ar d
    exact ⟨pre, by simpa [auto_enable, hw] using h1, h2, by simp,
      fun _ a b => (h3 a b).1⟩

end frames

/-! ## C3 -/

/-- The page-program transaction of `write_page`, once the busy check has
passed: opcode, three address bytes, 256 data bytes. -/
theorem write_page_free (ar : Arduino σ) (d : Device σ) (start_address : Nat)
    (buffer : Nat → Nat) (h : (busy ar d).1 = false) :
    (write_page ar d start_address buffer).1 = W25Q64FV_OK ∧
    Emits (auto_enable ar (busy ar d).2) (write_page ar d start_address buffer).2
      [[0x02, (start_address >>> 16) % 256, (start_address >>> 8) % 256, start_address % 256]
        ++ (List.range 256).map (fun k => buffer k % 256)] := by
  refine ⟨by simp [write_page, h], ?_⟩
  obtain ⟨evs, h1, h2, -⟩ := write_page_loop_spec ar buffer 256 0
    (SPI_transfer ar (SPI_transfer ar (SPI_transfer ar (SPI_transfer ar
      (select_device ar (auto_enable ar (busy ar d).2)) 2).2
      (start_address >>> 16)).2 (start_address >>> 8)).2 start_address).2
  have hs := Sends.append (Sends.append (Sends.append (Sends.append
    (Sends.transfer 2 (SPI_transfer ar
      (select_device ar (auto_enable ar (busy ar d).2)) 2).1)
    (Sends.transfer ((start_address >>> 16) % 256) (SPI_transfer ar (SPI_transfer ar
      (select_device ar (auto_enable ar (busy ar d).2)) 2).2 (start_address >>> 16)).1))
    (Sends.transfer ((start_address >>> 8) % 256) (SPI_transfer ar (SPI_transfer ar
      (SPI_transfer ar (select_device ar (auto_enable ar (busy ar d).2)) 2).2
      (start_address >>> 16)).2 (start_address >>> 8)).1))
    (Sends.transfer (start_address % 256) (SPI_transfer ar (SPI_transfer ar (SPI_transfer ar
      (SPI_transfer ar (select_device ar (auto_enable ar (busy ar d).2)) 2).2
      (start_address >>> 16)).2 (start_address >>> 8)).2 start_address).1)) h2
  have := frame_emits ar (auto_enable ar (busy ar d).2) _ _ _ (by rw [h1]; simp) hs
  simpa [write_page, h, W25Q64FV_INSTRUCTION_PAGE_PROGRAM, List.range_eq_range'] using this

/-- C3: when the chip reports not busy, `write_page(A, B)` on a 256-byte buffer
returns OK and its last bus transaction is one select/release pair carrying
exactly 260 bytes: `0x02`, `(A >> 16) mod 256`, `(A >> 8) mod 256`, `A mod 256`,
then `B[0] .. B[255]` unchanged.  With the write-enable flag set, the only
transaction before it is the status read (no `0x06`); with the flag clear and
the chip still reporting not busy, it is preceded by the write-enable command
`0x06` (itself behind two more status reads). -/
theorem write_page_wire_format (ar : Arduino σ) (d : Device σ) (A : Nat) (B : Nat → Nat)
    (hB : ∀ i, i < 256 → B i < 256) (h : (busy ar d).1 = false) :
    (write_page ar d A B).1 = W25Q64FV_OK ∧
    ∃ pre page,
      Emits d (write_page ar d A B).2 (pre ++ [page]) ∧
      page = [0x02, (A >>> 16) % 256, (A >>> 8) % 256, A % 256] ++ (List.range 256).map B ∧
      page.length = 260 ∧
      (d._write_enabled = true → pre = [status_read]) ∧
      (d._write_enabled = false → (busy ar (busy ar d).2).1 = false →
        (busy ar (busy ar (busy ar d).2).2).1 = false →
        pre = [status_read, status_read, status_read, [0x06]]) := by
  obtain ⟨hok, hpage⟩ := write_page_free ar d A B h
  obtain ⟨pre, hpre, -, hset, hclear⟩ := auto_enable_emits ar (busy ar d).2
  have hmap : (List.range 256).map (fun k => B k % 256) = (List.range 256).map B :=
    List.map_congr_left (fun k hk => Nat.mod_eq_of_lt (hB k (List.mem_range.mp hk)))
  rw [hmap] at hpage
  refine ⟨hok, status_read :: pre, _, ?_, rfl, by simp, ?_, ?_⟩
  · have := ((busy_emits ar d).trans hpre).trans hpage
    simpa using this
  · intro hw; simp [hset (by simpa using hw)]
  · intro hw h2 h3; simp [hclear (by simpa using hw) h2 h3]

/-- C3 on a chip that never reports busy, flag clear, `A = 0x012345`. -/
theorem write_page_wire_format_witness :
    (write_page scripted_chip (new_device []) 0x012345 (fun i => i % 256)).1 = W25Q64FV_OK ∧
    ∃ pre page,
      Emits (new_device []) (write_page scripted_chip (new_device []) 0x012345
        (fun i => i % 256)).2 (pre ++ [page]) ∧
      page = [0x02, 0x01, 0x23, 0x45] ++ (List.range 256).map (fun i => i % 256) ∧
      page.length = 260 ∧
      pre = [status_read, status_read, status_read, [0x06]] := by
  obtain ⟨h1, pre, page, h2, h3, h4, -, h5⟩ :=
    write_page_wire_format scripted_chip (new_device []) 0x012345 (fun i => i % 256)
      (fun i _ => Nat.mod_lt _ (by decide)) (by decide)
  exact ⟨h1, pre, page, h2, h3, h4, h5 rfl (by decide) (by decide)⟩

/-! ## C4 -/

/-- C4: for all bytes `m`, `t`, `c`: when the chip reports not busy (at the
check of `get_jedec` and at the check of the `read_reg` it calls) and answers
the three dummy exchanges after the opcode `0x9F` with `m`, `t`, `c`, then
`get_jedec` returns OK with `manufacture_id = m`, `memory_type = t`,
`capacity = c`, having sent `0x9F, 0, 0, 0` in one transaction; when the chip
reports busy at either check, it returns BUSY and the three outputs keep the
values they had. -/
theorem get_jedec_spec (ar : Arduino σ) (d : Device σ) (m0 t0 c0 m t c : Nat) :
    ((busy ar d).1 = false → (busy ar (busy ar d).2).1 = false →
      jedec_answers ar (busy ar (busy ar d).2).2 = (m, t, c) →
      (get_jedec ar d m0 t0 c0).1 = W25Q64FV_OK ∧
      (get_jedec ar d m0 t0 c0).2.2 = (m, t, c) ∧
      Emits d (get_jedec ar d m0 t0 c0).2.1 [status_read, status_read, [0x9F, 0, 0, 0]]) ∧
    ((busy ar d).1 = true →
      get_jedec ar d m0 t0 c0 = (W25Q64FV_BUSY, (busy ar d).2, m0, t0, c0)) ∧
    ((busy ar d).1 = false → (busy ar (busy ar d).2).1 = true →
      get_jedec ar d m0 t0 c0 = (W25Q64FV_BUSY, (busy ar (busy ar d).2).2, m0, t0, c0)) := by
  refine ⟨fun h1 h2 ha => ?_, fun h1 => by simp [get_jedec, h1], fun h1 h2 => by
    simp [get_jedec, h1, read_reg, h2]⟩
  simp only [jedec_answers, Prod.mk.injEq] at ha
  obtain ⟨hm, ht, hc⟩ := ha
  refine ⟨by simp [get_jedec, h1, read_reg, h2], ?_, ?_⟩
  · simp [get_jedec, h1, read_reg, h2, read_reg_loop, hm, ht, hc]
  · have hf := frame_emits ar (busy ar (busy ar d).2).2
      (SPI_transfer ar (SPI_transfer ar (SPI_transfer ar (SPI_transfer ar
        (select_device ar (busy ar (busy ar d).2).2) 0x9F).2 0).2 0).2 0).2
      [Event.transfer 0x9F
          (SPI_transfer ar (select_device ar (busy ar (busy ar d).2).2) 0x9F).1,
        Event.transfer 0 (SPI_transfer ar (SPI_transfer ar
          (select_device ar (busy ar (busy ar d).2).2) 0x9F).2 0).1,
        Event.transfer 0 (SPI_transfer ar (SPI_transfer ar (SPI_transfer ar
          (select_device ar (busy ar (busy ar d).2).2) 0x9F).2 0).2 0).1,
        Event.transfer 0 (SPI_transfer ar (SPI_transfer ar (SPI_transfer ar (SPI_transfer ar
          (select_device ar (busy ar (busy ar d).2).2) 0x9F).2 0).2 0).2 0).1]
      [0x9F, 0, 0, 0] (by simp)
      (Sends.append (Sends.append (Sends.append (Sends.transfer _ _) (Sends.transfer _ _))
        (Sends.transfer _ _)) (Sends.transfer _ _))
    have := ((busy_emits ar d).trans (busy_emits ar (busy ar d).2)).trans hf
    simpa [get_jedec, h1, read_reg, h2, read_reg_loop, W25Q64FV_INSTRUCTION_JEDEC_ID] using this

/-- C4 on a chip answering `0xEF, 0x40, 0x17`, and on a busy chip. -/
theorem get_jedec_spec_witness :
    ((get_jedec scripted_chip (new_device [0, 0, 0, 0, 0, 0xEF, 0x40, 0x17]) 1 2 3).1
        = W25Q64FV_OK ∧
      (get_jedec scripted_chip (new_device [0, 0, 0, 0, 0, 0xEF, 0x40, 0x17]) 1 2 3).2.2
        = (0xEF, 0x40, 0x17)) ∧
    (get_jedec stuck_chip (new_device 0) 1 2 3).1 = W25Q64FV_BUSY ∧
    (get_jedec stuck_chip (new_device 0) 1 2 3).2.2 = (1, 2, 3) ∧
    (get_jedec scripted_chip (new_device [0, 0, 0, 1]) 1 2 3).1 = W25Q64FV_BUSY ∧
    (get_jedec scripted_chip (new_device [0, 0, 0, 1]) 1 2 3).2.2 = (1, 2, 3) := by
  have a := (get_jedec_spec scripted_chip (new_device [0, 0, 0, 0, 0, 0xEF, 0x40, 0x17])
    1 2 3 0xEF 0x40 0x17).1 (by decide) (by decide) (by decide)
  have b := (get_jedec_spec stuck_chip (new_device 0) 1 2 3 0 0 0).2.1 (by decide)
  have c := (get_jedec_spec scripted_chip (new_device [0, 0, 0, 1]) 1 2 3 0 0 0).2.2
    (by decide) (by decide)
  exact ⟨⟨a.1, a.2.1⟩, by rw [b], by rw [b], by rw [c], by rw [c]⟩

/-! ## C5 -/

/-- The identification read of `begin` when the chip lets it happen: one status
read, then `0x90` and five dummy bytes in one transaction. -/
theorem begin_read_emits (ar : Arduino σ) (d : Device σ) (buffer : Nat → Nat)
    (h : (busy ar d).1 = false) :
    Emits d (read_reg ar d 0x90 buffer 5).2.1 [status_read, [0x90, 0, 0, 0, 0, 0]] := by
  have hf := frame_emits ar (busy ar d).2
    (read_reg_loop ar 5 0 buffer (SPI_transfer ar (select_device ar (busy ar d).2) 0x90).2).2
    [Event.transfer 0x90 (SPI_transfer ar (select_device ar (busy ar d).2) 0x90).1,
      Event.transfer 0 (SPI_transfer ar
        (SPI_transfer ar (select_device ar (busy ar d).2) 0x90).2 0).1,
      Event.transfer 0 (SPI_transfer ar (SPI_transfer ar
        (SPI_transfer ar (select_device ar (busy ar d).2) 0x90).2 0).2 0).1,
      Event.transfer 0 (SPI_transfer ar (SPI_transfer ar (SPI_transfer ar
        (SPI_transfer ar (select_device ar (busy ar d).2) 0x90).2 0).2 0).2 0).1,
      Event.transfer 0 (SPI_transfer ar (SPI_transfer ar (SPI_transfer ar (SPI_transfer ar
        (SPI_transfer ar (select_device ar (busy ar d).2) 0x90).2 0).2 0).2 0).2 0).1,
      Event.transfer 0 (SPI_transfer ar (SPI_transfer ar (SPI_transfer ar (SPI_transfer ar
        (SPI_transfer ar (SPI_transfer ar (select_device ar (busy ar d).2) 0x90).2
          0).2 0).2 0).2 0).2 0).1]
    [0x90, 0, 0, 0, 0, 0] (by simp [read_reg_loop])
    (Sends.append (Sends.append (Sends.append (Sends.append (Sends.append
      (Sends.transfer _ _) (Sends.transfer _ _)) (Sends.transfer _ _)) (Sends.transfer _ _))
      (Sends.transfer _ _)) (Sends.transfer _ _))
  have := (busy_emits ar d).trans hf
  simpa [read_reg, h] using this

/-- C5: when the chip lets the identification read of `begin` happen and
answers the five dummy bytes after the opcode `0x90` with `b0 .. b4`: if
`b4 = 0`, `begin` returns COMMUNICATION_FAIL and its whole bus activity is the
status read and the identification read, so neither `0x66` nor `0x99` is
sent; if `b4 ≠ 0`, `begin` returns exactly what `reset` returns from the
state the identification read has left. -/
theorem begin_identification (ar : Arduino σ) (d : Device σ) (cs_pin : Int)
    (buffer : Nat → Nat) (b0 b1 b2 b3 b4 : Nat)
    (h : (busy ar (begin_setup ar d cs_pin)).1 = false)
    (ha : id_answers ar (busy ar (begin_setup ar d cs_pin)).2 = [b0, b1, b2, b3, b4]) :
    (b4 = 0 →
      (begin ar d cs_pin buffer).1 = W25Q64FV_COMMUNICATION_FAIL ∧
      ∃ txs, Emits d (begin ar d cs_pin buffer).2 txs ∧
        txs = [status_read, [0x90, 0, 0, 0, 0, 0]] ∧
        ∀ tx ∈ txs, 0x66 ∉ tx ∧ 0x99 ∉ tx) ∧
    (b4 ≠ 0 →
      ∃ d1, Emits d d1 [status_read, [0x90, 0, 0, 0, 0, 0]] ∧
        begin ar d cs_pin buffer = reset ar d1) := by
  have h4 : (read_reg ar (begin_setup ar d cs_pin) 0x90 buffer 5).2.2 4 = b4 := by
    simp only [id_answers, List.cons.injEq, and_true] at ha
    simp [read_reg, h, read_reg_loop, ← ha.2.2.2.2, W25Q64FV_INSTRUCTION_MANUFACTURER_DEVICE_ID]
  have hem : Emits d (read_reg ar (begin_setup ar d cs_pin) 0x90 buffer 5).2.1
      [status_read, [0x90, 0, 0, 0, 0, 0]] :=
    begin_read_emits ar (begin_setup ar d cs_pin) buffer h
  refine ⟨fun hz => ⟨?_, _, ?_, rfl, ?_⟩, fun hz => ⟨_, hem, ?_⟩⟩
  · simp [begin, W25Q64FV_INSTRUCTION_MANUFACTURER_DEVICE_ID, h4, hz]
  · simpa [begin, W25Q64FV_INSTRUCTION_MANUFACTURER_DEVICE_ID, h4, hz] using hem
  · simp [status_read]
  · simp [begin, W25Q64FV_INSTRUCTION_MANUFACTURER_DEVICE_ID, h4, hz]

/-- C5 at the identification bytes `[0xEF, 0x40, 0x17, 0x00, 0x00]`, and at
`[0xEF, 0x40, 0x17, 0x00, 0x16]`. -/
theorem begin_identification_witness :
    ((begin scripted_chip (new_device [0, 0, 0, 0xEF, 0x40, 0x17, 0x00, 0x00]) 3
        (fun _ => 0xAA)).1 = W25Q64FV_COMMUNICATION_FAIL ∧
      ∃ txs, Emits (new_device [0, 0, 0, 0xEF, 0x40, 0x17, 0x00, 0x00])
          (begin scripted_chip (new_device [0, 0, 0, 0xEF, 0x40, 0x17, 0x00, 0x00]) 3
            (fun _ => 0xAA)).2 txs ∧
        txs = [status_read, [0x90, 0, 0, 0, 0, 0]] ∧
        ∀ tx ∈ txs, 0x66 ∉ tx ∧ 0x99 ∉ tx) ∧
    (∃ d1, Emits (new_device [0, 0, 0, 0xEF, 0x40, 0x17, 0x00, 0x16]) d1
        [status_read, [0x90, 0, 0, 0, 0, 0]] ∧
      begin scripted_chip (new_device [0, 0, 0, 0xEF, 0x40, 0x17, 0x00, 0x16]) 3
        (fun _ => 0xAA) = reset scripted_chip d1) :=
  ⟨(begin_identification scripted_chip
      (new_device [0, 0, 0, 0xEF, 0x40, 0x17, 0x00, 0x00]) 3 (fun _ => 0xAA)
      0xEF 0x40 0x17 0x00 0x00 (by decide) (by decide)).1 rfl,
    (begin_identification scripted_chip
      (new_device [0, 0, 0, 0xEF, 0x40, 0x17, 0x00, 0x16]) 3 (fun _ => 0xAA)
      0xEF 0x40 0x17 0x00 0x16 (by decide) (by decide)).2 (by decide)⟩

/-! ## C6 -/

theorem samples_append (a b : List Event) : samples (a ++ b) = samples a ++ samples b := by
  induction a with
  | nil => rfl
  | cons e es ih => cases e <;> simp [samples, ih]

theorem wait_step_arith (T T1 s t k : Nat) (hs : s < 4294967296)
    (hr : (T % 4294967296 + 4294967296 - s) % 4294967296 < t) (h1 : T + 1 ≤ T1)
    (h2 : T1 ≤ T + (4294967296 - t))
    (hk : t - (T % 4294967296 + 4294967296 - s) % 4294967296 ≤ k + 1) :
    t - (T1 % 4294967296 + 4294967296 - s) % 4294967296 ≤ k := by
  omega

theorem wait_exit_arith (T T0 t : Nat) (hT : T0 ≤ T)
    (hr : t ≤ (T % 4294967296 + 4294967296 - T0 % 4294967296) % 4294967296) : T0 + t ≤ T := by
  omega

/-- The polling loop against a chip that stays busy: it leaves after at most
`t` more rounds, and only at a clock sample that is `t` or more past the start. -/
theorem wait_until_free_loop_busy (ar : Arduino σ) (t T0 : Nat)
    (hbusy : ∀ d : Device σ, (busy ar d).1 = true)
    (hpoll : ∀ d : Device σ, ar.millis d.hw ≤ ar.millis (busy ar d).2.hw)
    (hdelay : ∀ s, ar.millis s + 1 ≤ ar.millis (ar.delay s 1))
    (hstep : ∀ d : Device σ,
      ar.millis (busy ar (delay ar d 1)).2.hw ≤ ar.millis d.hw + (ULONG_MOD - t)) :
    ∀ (k : Nat) (d : Device σ), T0 ≤ ar.millis d.hw →
      t - (ar.millis (busy ar d).2.hw % ULONG_MOD + ULONG_MOD - T0 % ULONG_MOD) % ULONG_MOD ≤ k →
      ∃ d' evs last,
        (∀ n, k < n → wait_until_free_loop ar (T0 % ULONG_MOD) t n d = some d') ∧
        d'.trace = d.trace ++ evs ∧
        (samples evs).getLast? = some last ∧
        t ≤ (last + ULONG_MOD - T0 % ULONG_MOD) % ULONG_MOD ∧
        T0 + t ≤ ar.millis d'.hw := by
  have hexit : ∀ (k : Nat) (d : Device σ), T0 ≤ ar.millis d.hw →
      ¬ (ar.millis (busy ar d).2.hw % ULONG_MOD + ULONG_MOD - T0 % ULONG_MOD) % ULONG_MOD < t →
      ∃ d' evs last,
        (∀ n, k < n → wait_until_free_loop ar (T0 % ULONG_MOD) t n d = some d') ∧
        d'.trace = d.trace ++ evs ∧
        (samples evs).getLast? = some last ∧
        t ≤ (last + ULONG_MOD - T0 % ULONG_MOD) % ULONG_MOD ∧
        T0 + t ≤ ar.millis d'.hw := by
    intro k d hT hr
    obtain ⟨r0, r1, htr⟩ := busy_trace ar d
    refine ⟨(millis ar (busy ar d).2).2,
      [Event.select, Event.transfer 0x05 r0, Event.transfer 0 r1, Event.release]
        ++ [Event.millis (millis ar (busy ar d).2).1],
      ar.millis (busy ar d).2.hw % ULONG_MOD, ?_, ?_, ?_, ?_, ?_⟩
    · intro n hn
      obtain ⟨n', rfl⟩ : ∃ n', n = n' + 1 := ⟨n - 1, by omega⟩
      simp [wait_until_free_loop, hbusy, millis, hr]
    · rw [millis_trace, htr, List.append_assoc]
    · simp [samples, samples_append, millis]
    · exact Nat.le_of_not_lt hr
    · have h1 := hpoll d
      have h2 := Nat.le_of_not_lt hr
      simp only [ULONG_MOD] at h2
      exact wait_exit_arith _ _ _ (le_trans hT h1) h2
  intro k
  induction k with
  | zero =>
    intro d hT hk
    exact hexit 0 d hT (by omega)
  | succ k ih =>
    intro d hT hk
    by_cases hr :
      (ar.millis (busy ar d).2.hw % ULONG_MOD + ULONG_MOD - T0 % ULONG_MOD) % ULONG_MOD < t
    · have h1 := hpoll d
      have h2 := hdelay (busy ar d).2.hw
      have h3 := hpoll (delay ar (millis ar (busy ar d).2).2 1)
      have h4 := hstep (millis ar (busy ar d).2).2
      have hk' : t - (ar.millis (busy ar (delay ar (millis ar (busy ar d).2).2 1)).2.hw
          % ULONG_MOD + ULONG_MOD - T0 % ULONG_MOD) % ULONG_MOD ≤ k := by
        simp only [ULONG_MOD, millis_hw] at hr hk h4 ⊢
        exact wait_step_arith _ _ _ _ _ (Nat.mod_lt _ (by decide)) hr
          (le_trans h2 h3) h4 hk
      obtain ⟨d', evs, last, hrun, htr, hlast, hle, hT'⟩ :=
        ih (delay ar (millis ar (busy ar d).2).2 1)
          (le_trans hT (le_trans h1 (le_trans (Nat.le_of_succ_le h2) (le_refl _)))) hk'
      obtain ⟨r0, r1, hb⟩ := busy_trace ar d
      refine ⟨d',
        ([Event.select, Event.transfer 0x05 r0, Event.transfer 0 r1, Event.release]
          ++ [Event.millis (millis ar (busy ar d).2).1] ++ [Event.delay 1]) ++ evs,
        last, ?_, ?_, ?_, hle, hT'⟩
      · intro n hn
        obtain ⟨n', rfl⟩ : ∃ n', n = n' + 1 := ⟨n - 1, by omega⟩
        have := hrun n' (by omega)
        simpa [wait_until_free_loop, hbusy, millis, hr] using this
      · rw [htr, delay_trace, millis_trace, hb]
        simp only [List.append_assoc]
      · rw [samples_append, List.getLast?_append, hlast]
        rfl
    · exact hexit (k + 1) d hT hr

theorem slow_chip_busy (d : Device Nat) : (busy slow_chip d).1 = true := by
  simp [busy, SPI_transfer, slow_chip]

theorem stuck_chip_busy (d : Device Nat) : (busy stuck_chip d).1 = true := by
  simp [busy, SPI_transfer, stuck_chip]

theorem slow_chip_loop (fuel : Nat) :
    ∀ d : Device Nat, d.hw % 2 = 0 →
      wait_until_free_loop slow_chip 0 4294967295 fuel d = none := by
  induction fuel with
  | zero => intro d _; rfl
  | succ n ih =>
    intro d hd
    have hb : (busy slow_chip d).2.hw = d.hw := rfl
    have hm : slow_chip.millis d.hw = d.hw := rfl
    have hc : d.hw % 4294967296 < 4294967295 := by omega
    have hn := ih (delay slow_chip (millis slow_chip (busy slow_chip d).2).2 1)
      (by show (d.hw + 2 * 1) % 2 = 0; omega)
    simp [wait_until_free_loop, slow_chip_busy, millis, hb, hm, ULONG_MOD, hc]
    simpa [millis, ULONG_MOD, hb, hm] using hn

/-- Call of `wait_until_free` against a chip that stays busy. -/
theorem wait_until_free_on_busy (ar : Arduino σ) (d : Device σ) (t : Nat)
    (hbusy : ∀ d' : Device σ, (busy ar d').1 = true)
    (hpoll : ∀ d' : Device σ, ar.millis d'.hw ≤ ar.millis (busy ar d').2.hw)
    (hdelay : ∀ s, ar.millis s + 1 ≤ ar.millis (ar.delay s 1))
    (hstep : ∀ d' : Device σ,
      ar.millis (busy ar (delay ar d' 1)).2.hw ≤ ar.millis d'.hw + (ULONG_MOD - t)) :
    ∃ d' evs start last,
      (∀ fuel, t < fuel → wait_until_free ar fuel d t = some (W25Q64FV_TIMEOUT, d')) ∧
      d'.trace = d.trace ++ evs ∧
      (samples evs).head? = some start ∧
      (samples evs).getLast? = some last ∧
      t ≤ (last + ULONG_MOD - start) % ULONG_MOD ∧
      ar.millis d.hw + t ≤ ar.millis d'.hw := by
  obtain ⟨d1, evs, last, hrun, htr, hlast, hle, hT⟩ :=
    wait_until_free_loop_busy ar t (ar.millis d.hw) hbusy hpoll hdelay hstep t
      (millis ar d).2 (le_refl _) (Nat.sub_le _ _)
  obtain ⟨r0, r1, hb⟩ := busy_trace ar d1
  refine ⟨(busy ar d1).2,
    ([Event.millis (millis ar d).1] ++ evs)
      ++ [Event.select, Event.transfer 0x05 r0, Event.transfer 0 r1, Event.release],
    ar.millis d.hw % ULONG_MOD, last, ?_, ?_, ?_, ?_, hle, le_trans hT (hpoll d1)⟩
  · intro fuel hf
    have := hrun fuel hf
    simp only [wait_until_free]
    rw [show (millis ar d).1 = ar.millis d.hw % ULONG_MOD from rfl, this]
    simp [hbusy]
  · rw [hb, htr, millis_trace]
    simp only [List.append_assoc]
  · simp [samples, samples_append, millis]
  · rw [samples_append, samples_append]
    simp [samples, List.getLast?_append, hlast]
    cases hs : samples evs with
    | nil => simp [hs] at hlast
    | cons x xs => rw [hs] at hlast; rw [List.getLast?_cons_cons]; exact hlast

/-- Call of `wait_until_free` against a chip that is free at both of its polls. -/
theorem wait_until_free_on_free (ar : Arduino σ) (d : Device σ) (t : Nat)
    (hfree1 : (busy ar (millis ar d).2).1 = false)
    (hfree2 : (busy ar (millis ar (busy ar (millis ar d).2).2).2).1 = false) :
    ∃ d',
      (∀ fuel, 0 < fuel → wait_until_free ar fuel d t = some (W25Q64FV_OK, d')) ∧
      Emits d d' [status_read, status_read] := by
  refine ⟨(busy ar (millis ar (busy ar (millis ar d).2).2).2).2, ?_, ?_⟩
  · intro fuel hf
    obtain ⟨n, rfl⟩ : ∃ n, fuel = n + 1 := ⟨fuel - 1, by omega⟩
    simp [wait_until_free, wait_until_free_loop, hfree1, hfree2]
  · obtain ⟨a, ha, hta⟩ := busy_emits ar (millis ar d).2
    obtain ⟨b, hb, htb⟩ := busy_emits ar (millis ar (busy ar (millis ar d).2).2).2
    refine ⟨[Event.millis (millis ar d).1] ++ a
      ++ [Event.millis (millis ar (busy ar (millis ar d).2).2).1] ++ b, ?_, ?_⟩
    · rw [hb, millis_trace, ha, millis_trace]
      simp only [List.append_assoc]
    · have h1 : transactions ([Event.millis (millis ar d).1] ++ a) = some [status_read] := by
        simpa [transactions, transactions_from] using hta
      have h2 : transactions ([Event.millis (millis ar (busy ar (millis ar d).2).2).1] ++ b)
          = some [status_read] := by
        simpa [transactions, transactions_from] using htb
      have := transactions_append h1 h2
      simpa [List.append_assoc] using this

/-- C7 fails on the code.  On a chip that is free at the first status read
and busy at the second, `write_page` (flag clear) calls `enable_writing`, which
returns BUSY, and goes on to return OK; `erase_sector` without hold does the
same when the chip is free again at the third read; `reset` returns OK
although its second command returned BUSY; `begin` returns OK although its
identification read returned BUSY. -/
theorem inner_status_dropped :
    ((enable_writing scripted_chip (busy scripted_chip (new_device [0, 0, 0, 1])).2).1
        = W25Q64FV_BUSY ∧
      (write_page scripted_chip (new_device [0, 0, 0, 1]) 0x000100 (fun i => i % 256)).1
        = W25Q64FV_OK) ∧
    ((enable_writing scripted_chip (busy scripted_chip (new_device [0, 0, 0, 1])).2).1
        = W25Q64FV_BUSY ∧
      (erase_sector scripted_chip 0 (new_device [0, 0, 0, 1]) 0x001000 false).map Prod.fst
        = some W25Q64FV_OK) ∧
    ((write_command scripted_chip
        (write_command scripted_chip (busy scripted_chip (new_device [0, 0, 0, 0, 0, 0, 1])).2
          W25Q64FV_INSTRUCTION_ENABLE_RESET).2 W25Q64FV_INSTRUCTION_RESET).1 = W25Q64FV_BUSY ∧
      (reset scripted_chip (new_device [0, 0, 0, 0, 0, 0, 1])).1 = W25Q64FV_OK) ∧
    ((read_reg scripted_chip (begin_setup scripted_chip (new_device [0, 1]) 3)
        W25Q64FV_INSTRUCTION_MANUFACTURER_DEVICE_ID (fun _ => 0xAA) 5).1 = W25Q64FV_BUSY ∧
      (begin scripted_chip (new_device [0, 1]) 3 (fun _ => 0xAA)).1 = W25Q64FV_OK) := by
  refine ⟨⟨by decide, ?_⟩, ⟨by decide, by decide⟩, ⟨by decide, by decide⟩, ⟨by decide, by decide⟩⟩
  exact (write_page_free scripted_chip _ _ _ (by decide)).1

set_option maxRecDepth 100000 in
/-- C8 fails on the code.  Same chip: the log of `write_page` is a status read
answered free, a status read answered busy, and then the page-program
transaction `0x02 ..`, so the invariant does not hold of it.  (On a chip that
stays free the log of the same call does satisfy the invariant.) -/
theorem page_program_after_busy :
    transactions
        (write_page scripted_chip (new_device [0, 0, 0, 1]) 0x000100 (fun _ => 0x5A)).2.trace
      = some [status_read, status_read,
          [0x02, 0x00, 0x01, 0x00] ++ (List.range 256).map (fun _ => 0x5A)] ∧
    busy_invariant
        (write_page scripted_chip (new_device [0, 0, 0, 1]) 0x000100 (fun _ => 0x5A)).2.trace
      = false ∧
    busy_invariant
        (write_page scripted_chip (new_device []) 0x000100 (fun _ => 0x5A)).2.trace
      = true := by
  refine ⟨?_, ?_, ?_⟩ <;> decide

/-! ## C9 and C10: the erase operations -/

theorem flash_chip_free (d : Device Flash) : (busy flash_chip d).1 = false := by
  simp [busy, SPI_transfer, select_device, flash_chip, Flash.answer, LOW,
    W25Q64FV_INSTRUCTION_READ_STATUS_REGISTER_1]

/-- The addressed command of an erase once `write_reg` finds the chip free:
a status read, then opcode and three address bytes in one transaction. -/
theorem write_reg_address_free (ar : Arduino σ) (d : Device σ) (reg A : Nat)
    (h : (busy ar d).1 = false) :
    (write_reg ar d reg (address_buffer A) 3).1 = W25Q64FV_OK ∧
    Emits d (write_reg ar d reg (address_buffer A) 3).2
      [status_read, [reg % 256, (A >>> 16) % 256, (A >>> 8) % 256, A % 256]] := by
  refine ⟨by simp [write_reg, h], ?_⟩
  obtain ⟨evs, h1, h2, -⟩ := write_reg_loop_spec ar (address_buffer A) 3 0
    (SPI_transfer ar (select_device ar (busy ar d).2) reg).2
  have hs := Sends.append
    (Sends.transfer (reg % 256) (SPI_transfer ar (select_device ar (busy ar d).2) reg).1) h2
  have hf := frame_emits ar (busy ar d).2 _ _ _ (by rw [h1]; simp) hs
  have := (busy_emits ar d).trans hf
  simpa [write_reg, h, address_buffer, List.range', Function.update] using this

theorem wait_until_free_status (ar : Arduino σ) (fuel : Nat) (d d' : Device σ) (t : Nat)
    (s : W25Q64FV_status_t) (h : wait_until_free ar fuel d t = some (s, d')) :
    s = W25Q64FV_OK ∨ s = W25Q64FV_TIMEOUT := by
  simp only [wait_until_free] at h
  cases hl : wait_until_free_loop ar (millis ar d).1 t fuel (millis ar d).2 with
  | none => simp [hl] at h
  | some d1 =>
    cases hb : (busy ar d1).1 <;> simp [hl, hb] at h <;> simp [← h.1]

/-- Everything an addressed erase does up to and including its command, when
the chip is free at the check of `write_reg`. -/
theorem erase_command_emits (ar : Arduino σ) (d : Device σ) (reg A : Nat)
    (h2 : (busy ar (auto_enable ar (busy ar d).2)).1 = false) :
    (write_reg ar (auto_enable ar (busy ar d).2) reg (address_buffer A) 3).1 = W25Q64FV_OK ∧
    ∃ pre,
      Emits d (write_reg ar (auto_enable ar (busy ar d).2) reg (address_buffer A) 3).2
        (pre ++ [[reg % 256, (A >>> 16) % 256, (A >>> 8) % 256, A % 256]]) ∧
      (∀ tx ∈ pre, tx = status_read ∨ tx = [0x06]) ∧
      (d._write_enabled = true → pre = [status_read, status_read]) ∧
      (d._write_enabled = false → (busy ar (busy ar d).2).1 = false →
        (busy ar (busy ar (busy ar d).2).2).1 = false →
        pre = [status_read, status_read, status_read, [0x06], status_read]) := by
  obtain ⟨hok, hcmd⟩ := write_reg_address_free ar (auto_enable ar (busy ar d).2) reg A h2
  obtain ⟨pre, hpre, hall, hset, hclear⟩ := auto_enable_emits ar (busy ar d).2
  refine ⟨hok, status_read :: (pre ++ [status_read]), ?_, ?_, ?_, ?_⟩
  · have := ((busy_emits ar d).trans hpre).trans hcmd
    simpa using this
  · intro tx htx
    simp only [List.mem_cons, List.mem_append, List.mem_singleton] at htx
    rcases htx with h | h | h
    · exact Or.inl h
    · exact hall tx h
    · exact Or.inl (by simpa using h)
  · intro hw; simp [hset (by simpa using hw)]
  · intro hw a b; simp [hclear (by simpa using hw) a b]

/-- The same for `erase_chip`, whose command goes through `write_command`. -/
theorem erase_chip_command_emits (ar : Arduino σ) (d : Device σ)
    (h2 : (busy ar (auto_enable ar (busy ar d).2)).1 = false) :
    (write_command ar (auto_enable ar (busy ar d).2) 0xC7).1 = W25Q64FV_OK ∧
    ∃ pre,
      Emits d (write_command ar (auto_enable ar (busy ar d).2) 0xC7).2 (pre ++ [[0xC7]]) ∧
      (∀ tx ∈ pre, tx = status_read ∨ tx = [0x06]) ∧
      (d._write_enabled = true → pre = [status_read, status_read]) ∧
      (d._write_enabled = false → (busy ar (busy ar d).2).1 = false →
        (busy ar (busy ar (busy ar d).2).2).1 = false →
        pre = [status_read, status_read, status_read, [0x06], status_read]) := by
  obtain ⟨hok, -, hcmd⟩ := write_command_free ar (auto_enable ar (busy ar d).2) 0xC7 h2
  obtain ⟨pre, hpre, hall, hset, hclear⟩ := auto_enable_emits ar (busy ar d).2
  refine ⟨hok, status_read :: (pre ++ [status_read]), ?_, ?_, ?_, ?_⟩
  · have := ((busy_emits ar d).trans hpre).trans hcmd
    simpa using this
  · intro tx htx
    simp only [List.mem_cons, List.mem_append, List.mem_singleton] at htx
    rcases htx with h | h | h
    · exact Or.inl h
    · exact hall tx h
    · exact Or.inl (by simpa using h)
  · intro hw; simp [hset (by simpa using hw)]
  · intro hw a b; simp [hclear (by simpa using hw) a b]

/-- C9: for each erase whose command was sent (the chip was free at the check
of the operation and at the check of the command write), the call without hold
returns OK in a state `d'` whose log ends with the erase transaction (no status
read after it), the call with hold returns exactly what `wait_until_free`
returns from `d'`, with timeout 5000 for the sector and block erases and
100000 for the chip erase, and the call without a `hold` argument is the call
with hold.  `wait_until_free` returns nothing but OK or TIMEOUT. -/
theorem erase_hold_semantics (ar : Arduino σ) (fuel : Nat) (d : Device σ) (A : Nat)
    (h1 : (busy ar d).1 = false) (h2 : (busy ar (auto_enable ar (busy ar d).2)).1 = false) :
    (∃ d' pre,
      erase_sector ar fuel d A false = some (W25Q64FV_OK, d') ∧
      erase_sector ar fuel d A true = wait_until_free ar fuel d' 5000 ∧
      erase_sector ar fuel d A = erase_sector ar fuel d A true ∧
      Emits d d' (pre ++ [[0x20, (A >>> 16) % 256, (A >>> 8) % 256, A % 256]])) ∧
    (∃ d' pre,
      erase_block_32 ar fuel d A false = some (W25Q64FV_OK, d') ∧
      erase_block_32 ar fuel d A true = wait_until_free ar fuel d' 5000 ∧
      erase_block_32 ar fuel d A = erase_block_32 ar fuel d A true ∧
      Emits d d' (pre ++ [[0x52, (A >>> 16) % 256, (A >>> 8) % 256, A % 256]])) ∧
    (∃ d' pre,
      erase_block_64 ar fuel d A false = some (W25Q64FV_OK, d') ∧
      erase_block_64 ar fuel d A true = wait_until_free ar fuel d' 5000 ∧
      erase_block_64 ar fuel d A = erase_block_64 ar fuel d A true ∧
      Emits d d' (pre ++ [[0xD8, (A >>> 16) % 256, (A >>> 8) % 256, A % 256]])) ∧
    (∃ d' pre,
      erase_chip ar fuel d false = some (W25Q64FV_OK, d') ∧
      erase_chip ar fuel d true = wait_until_free ar fuel d' 100000 ∧
      erase_chip ar fuel d = erase_chip ar fuel d true ∧
      Emits d d' (pre ++ [[0xC7]])) ∧
    (∀ (d0 d1 : Device σ) (t : Nat) (s : W25Q64FV_status_t),
      wait_until_free ar fuel d0 t = some (s, d1) → s = W25Q64FV_OK ∨ s = W25Q64FV_TIMEOUT) := by
  refine ⟨?_, ?_, ?_, ?_, fun d0 d1 t s h => wait_until_free_status ar fuel d0 d1 t s h⟩
  · obtain ⟨hok, pre, hem, -⟩ := erase_command_emits ar d 0x20 A h2
    exact ⟨_, pre,
      by simp [erase_sector, h1, hok, W25Q64FV_INSTRUCTION_SECTOR_4K_ERASE],
      by simp [erase_sector, h1, hok, W25Q64FV_INSTRUCTION_SECTOR_4K_ERASE,
        W25Q64FV_DEFAULT_TIMEOUT], rfl, hem⟩
  · obtain ⟨hok, pre, hem, -⟩ := erase_command_emits ar d 0x52 A h2
    exact ⟨_, pre,
      by simp [erase_block_32, h1, hok, W25Q64FV_INSTRUCTION_BLOCK_32K_ERASE],
      by simp [erase_block_32, h1, hok, W25Q64FV_INSTRUCTION_BLOCK_32K_ERASE,
        W25Q64FV_DEFAULT_TIMEOUT], rfl, hem⟩
  · obtain ⟨hok, pre, hem, -⟩ := erase_command_emits ar d 0xD8 A h2
    exact ⟨_, pre,
      by simp [erase_block_64, h1, hok, W25Q64FV_INSTRUCTION_BLOCK_64K_ERASE],
      by simp [erase_block_64, h1, hok, W25Q64FV_INSTRUCTION_BLOCK_64K_ERASE,
        W25Q64FV_DEFAULT_TIMEOUT], rfl, hem⟩
  · obtain ⟨hok, pre, hem, -⟩ := erase_chip_command_emits ar d h2
    exact ⟨_, pre,
      by simp [erase_chip, h1, hok, W25Q64FV_INSTRUCTION_CHIP_ERASE],
      by simp [erase_chip, h1, hok, W25Q64FV_INSTRUCTION_CHIP_ERASE,
        W25Q64FV_CHIP_ERASE_TIMEOUT], rfl, hem⟩

/-- C9 on a chip that is free throughout, flag clear, sector `0x001000`. -/
theorem erase_hold_semantics_witness :
    ∃ d' pre,
      erase_sector scripted_chip 5 (new_device []) 0x001000 false = some (W25Q64FV_OK, d') ∧
      erase_sector scripted_chip 5 (new_device []) 0x001000 true
        = wait_until_free scripted_chip 5 d' 5000 ∧
      erase_sector scripted_chip 5 (new_device []) 0x001000
        = erase_sector scripted_chip 5 (new_device []) 0x001000 true ∧
      Emits (new_device []) d' (pre ++ [[0x20, 0x00, 0x10, 0x00]]) :=
  (erase_hold_semantics scripted_chip 5 (new_device []) 0x001000 (by decide) (by decide)).1

/-! ## The address bytes and the wait on a free chip -/

theorem address_buffer_bytes (A : Nat) :
    address_buffer A 0 = (A >>> 16) % 256 ∧ address_buffer A 1 = (A >>> 8) % 256 ∧
    address_buffer A 2 = A % 256 := by
  simp [address_buffer, Function.update]

/-- What `wait_until_free` adds to an erase on a chip that is free: two status
reads and OK. -/
theorem hold_on_free_chip (ar : Arduino σ) (hfree : ∀ d : Device σ, (busy ar d).1 = false)
    (fuel : Nat) (hf : 0 < fuel) (d : Device σ) (t : Nat) (hold : Bool) :
    ∃ d', (if hold then wait_until_free ar fuel d t else some (W25Q64FV_OK, d))
        = some (W25Q64FV_OK, d') ∧
      Emits d d' (if hold then [status_read, status_read] else []) := by
  cases hold with
  | false => exact ⟨d, by simp, by simpa using Emits.refl d⟩
  | true =>
    obtain ⟨d', h1, h2⟩ := wait_until_free_on_free ar d t (hfree _) (hfree _)
    exact ⟨d', by simpa using h1 fuel hf, by simpa using h2⟩

/-! ## C2: round trip on the simulated chip -/

theorem flash_write_page_loop_hw (B : Nat → Nat) (n : Nat) :
    ∀ (i : Nat) (d : Device Flash),
      (write_page_loop flash_chip B n i d).hw
        = { mem := d.hw.mem, rx := d.hw.rx ++ (List.range' i n).map (fun k => B k % 256) } := by
  induction n with
  | zero => intro i d; simp [write_page_loop]
  | succ n ih =>
    intro i d
    rw [write_page_loop, ih]
    simp [SPI_transfer, flash_chip, List.range']

theorem flash_page_lookup (B : Nat → Nat) (i : Nat) (h : i < 256) :
    ((List.range' 0 256).map (fun k => B k % 256)).getD i 0 = B i % 256 := by
  rw [List.getD_eq_getElem?_getD, List.getElem?_map, List.getElem?_range' _ _ h]
  simp

/-- After `write_page` the simulated array holds the page at the transmitted
address. -/
theorem flash_write_page_mem (d : Device Flash) (A : Nat) (B : Nat → Nat) (i : Nat)
    (h : i < 256) :
    (write_page flash_chip d A B).2.hw.mem
        (flash_address ((A >>> 16) % 256) ((A >>> 8) % 256) (A % 256) + i) = B i % 256 ∧
    (write_page flash_chip d A B).2.hw.rx = [] := by
  have hl := flash_page_lookup B i h
  simp only [write_page, flash_chip_free, Bool.false_eq_true, if_false, release_device]
  rw [flash_write_page_loop_hw]
  simp [SPI_transfer, select_device, flash_chip, LOW, HIGH, Flash.commit,
    W25Q64FV_INSTRUCTION_PAGE_PROGRAM, h, hl]

theorem flash_read_loop (a b c : Nat) (n : Nat) :
    ∀ (i : Nat) (buffer : Nat → Nat) (d : Device Flash) (rest : List Nat),
      d.hw.rx = 0x03 :: a :: b :: c :: rest →
      ∀ j, (read_reg_loop flash_chip n i buffer d).1 j
        = if i ≤ j ∧ j < i + n then
            d.hw.mem (flash_address a b c + rest.length + (j - i)) % 256
          else buffer j := by
  induction n with
  | zero =>
    intro i buffer d rest _ j
    rw [read_reg_loop, if_neg (by omega)]
  | succ n ih =>
    intro i buffer d rest hrx j
    rw [read_reg_loop]
    have hrx' : (SPI_transfer flash_chip d 0).2.hw.rx = 0x03 :: a :: b :: c :: (rest ++ [0]) := by
      simp [SPI_transfer, flash_chip, hrx]
    have hmem : (SPI_transfer flash_chip d 0).2.hw.mem = d.hw.mem := rfl
    have hans : (SPI_transfer flash_chip d 0).1
        = d.hw.mem (flash_address a b c + rest.length) % 256 := by
      simp [SPI_transfer, flash_chip, Flash.answer, hrx]
    rw [ih (i + 1) _ _ (rest ++ [0]) hrx' j, hmem, hans]
    by_cases hj : j = i
    · subst hj
      simp
    · have h1 : (i + 1 ≤ j ∧ j < i + 1 + n) ↔ (i ≤ j ∧ j < i + (n + 1)) := by omega
      by_cases h2 : i ≤ j ∧ j < i + (n + 1)
      · rw [if_pos (h1.mpr h2), if_pos h2]
        congr 2
        simp only [List.length_append, List.length_singleton]
        omega
      · rw [if_neg (fun h => h2 (h1.mp h)), if_neg h2, Function.update_noteq hj]

/-- Call of `read_page` on the simulated chip: it returns the array content from the
transmitted address on. -/
theorem flash_read_page (d : Device Flash) (A : Nat) (out : Nat → Nat) (i : Nat) (h : i < 256) :
    (read_page flash_chip d A out).1 = W25Q64FV_OK ∧
    (read_page flash_chip d A out).2.2 i
      = d.hw.mem (flash_address ((A >>> 16) % 256) ((A >>> 8) % 256) (A % 256) + i) % 256 := by
  have hmem : ∀ d' : Device Flash, (busy flash_chip d').2.hw.mem = d'.hw.mem := by
    intro d'
    simp [busy, release_device, SPI_transfer, select_device, flash_chip, LOW, HIGH,
      Flash.commit, W25Q64FV_INSTRUCTION_READ_STATUS_REGISTER_1]
  refine ⟨by simp [read_page, flash_chip_free], ?_⟩
  simp only [read_page, flash_chip_free, Bool.false_eq_true, if_false]
  rw [flash_read_loop ((A >>> 16) % 256) ((A >>> 8) % 256) (A % 256) 256 0 out _ []
    (by simp [SPI_transfer, select_device, flash_chip, LOW, W25Q64FV_INSTRUCTION_READ_DATA])]
  have : (SPI_transfer flash_chip (SPI_transfer flash_chip (SPI_transfer flash_chip
      (SPI_transfer flash_chip (select_device flash_chip (busy flash_chip d).2)
        W25Q64FV_INSTRUCTION_READ_DATA).2 (A >>> 16)).2 (A >>> 8)).2 A).2.hw.mem
      = d.hw.mem := by
    rw [← hmem d]
    rfl
  rw [this]
  simp [h]

/-- C2: on the simulated chip (it stores the bytes of a page-program
transaction at the transmitted address, returns them on a read-data
transaction and never reports busy), for every address `A`, every 256-byte
buffer `B`, every state of the array and of the driver, `write_page(A, B)`
followed by `read_page(A, out)` both return OK and leave `out[i] = B[i]` for
every `i < 256`. -/
theorem write_read_round_trip (d : Device Flash) (A : Nat) (B out : Nat → Nat)
    (hB : ∀ i, i < 256 → B i < 256) :
    (write_page flash_chip d A B).1 = W25Q64FV_OK ∧
    (read_page flash_chip (write_page flash_chip d A B).2 A out).1 = W25Q64FV_OK ∧
    ∀ i, i < 256 →
      (read_page flash_chip (write_page flash_chip d A B).2 A out).2.2 i = B i := by
  refine ⟨(write_page_free flash_chip d A B (flash_chip_free d)).1,
    (flash_read_page _ A out 0 (by decide)).1, fun i hi => ?_⟩
  rw [(flash_read_page _ A out i hi).2, (flash_write_page_mem d A B i hi).1,
    Nat.mod_mod, Nat.mod_eq_of_lt (hB i hi)]

/-- C2 at `A = 0x000100`, `B[i] = i`, on a freshly erased chip. -/
theorem write_read_round_trip_witness :
    (write_page flash_chip (new_device erased) 0x000100 (fun i => i)).1 = W25Q64FV_OK ∧
    (read_page flash_chip (write_page flash_chip (new_device erased) 0x000100 (fun i => i)).2
      0x000100 (fun _ => 0)).1 = W25Q64FV_OK ∧
    ∀ i, i < 256 →
      (read_page flash_chip (write_page flash_chip (new_device erased) 0x000100 (fun i => i)).2
        0x000100 (fun _ => 0)).2.2 i = i :=
  write_read_round_trip (new_device erased) 0x000100 (fun i => i) (fun _ => 0) (fun _ h => h)

/-! ## C11: the write-enable flag -/

section flag

variable (ar : Arduino σ)

theorem read_reg_loop_we (n : Nat) :
    ∀ (i : Nat) (buffer : Nat → Nat) (d : Device σ),
      (read_reg_loop ar n i buffer d).2._write_enabled = d._write_enabled := by
  induction n with
  | zero => intro i buffer d; rfl
  | succ n ih => intro i buffer d; rw [read_reg_loop, ih]; rfl

theorem write_reg_we (d : Device σ) (reg : Nat) (buffer : Nat → Nat) (length : Nat) :
    (write_reg ar d reg buffer length).2._write_enabled = d._write_enabled := by
  obtain ⟨_, -, -, h⟩ := write_reg_loop_spec ar buffer length 0
    (SPI_transfer ar (select_device ar (busy ar d).2) reg).2
  cases hb : (busy ar d).1 <;> simp [write_reg, hb, h]

theorem read_reg_we (d : Device σ) (reg : Nat) (buffer : Nat → Nat) (length : Nat) :
    (read_reg ar d reg buffer length).2.1._write_enabled = d._write_enabled := by
  cases hb : (busy ar d).1 <;> simp [read_reg, hb, read_reg_loop_we]

/-- The flag after `enable_writing`: set when the call returned OK, as before
otherwise. -/
theorem enable_writing_we (d : Device σ) :
    (enable_writing ar d).2._write_enabled
      = if (enable_writing ar d).1 = W25Q64FV_OK then true else d._write_enabled := by
  cases h1 : (busy ar d).1 with
  | true => simp [enable_writing, h1]
  | false =>
    cases h2 : (busy ar (busy ar d).2).1 with
    | true => simp [enable_writing, h1, write_command_busy ar _ _ h2]
    | false =>
      have hs := (write_command_free ar (busy ar d).2 6 h2).1
      simp [enable_writing, h1, hs, W25Q64FV_INSTRUCTION_WRITE_ENABLE]

/-- The flag after `disable_writing`: clear when the call returned OK, as
before otherwise. -/
theorem disable_writing_we (d : Device σ) :
    (disable_writing ar d).2._write_enabled
      = if (disable_writing ar d).1 = W25Q64FV_OK then false else d._write_enabled := by
  cases h1 : (busy ar d).1 with
  | true => simp [disable_writing, h1]
  | false =>
    cases h2 : (busy ar (busy ar d).2).1 with
    | true => simp [disable_writing, h1, write_command_busy ar _ _ h2]
    | false =>
      have hs := (write_command_free ar (busy ar d).2 4 h2).1
      simp [disable_writing, h1, hs, W25Q64FV_INSTRUCTION_WRITE_DISABLE]

theorem auto_enable_of_set (d : Device σ) (h : d._write_enabled = true) :
    auto_enable ar d = d := by
  simp [auto_enable, h]

/-- The automatic enable never clears the flag. -/
theorem auto_enable_we (d : Device σ) :
    (auto_enable ar d)._write_enabled = true ∨
      (auto_enable ar d)._write_enabled = d._write_enabled := by
  cases hw : d._write_enabled with
  | true => left; rw [auto_enable_of_set ar d hw]; exact hw
  | false =>
    have := enable_writing_we ar d
    by_cases hs : (enable_writing ar d).1 = W25Q64FV_OK
    · left; simpa [auto_enable, hw, hs] using this
    · right; simpa [auto_enable, hw, hs] using this

theorem write_page_loop_we (buffer : Nat → Nat) (n i : Nat) (d : Device σ) :
    (write_page_loop ar buffer n i d)._write_enabled = d._write_enabled :=
  (write_page_loop_spec ar buffer n i d).choose_spec.2.2

/-- The flag after `write_page` is the flag its automatic enable left, or the
old one when the chip was busy. -/
theorem write_page_we (d : Device σ) (a : Nat) (buffer : Nat → Nat) :
    (write_page ar d a buffer).2._write_enabled
      = if (busy ar d).1 then d._write_enabled
        else (auto_enable ar (busy ar d).2)._write_enabled := by
  cases hb : (busy ar d).1
  · simp only [write_page, hb, Bool.false_eq_true, if_false]
    rw [release_device_we, write_page_loop_we, SPI_transfer_we, SPI_transfer_we,
      SPI_transfer_we, SPI_transfer_we, select_device_we]
  · simp only [write_page, hb, if_true]
    rfl

theorem read_page_we (d : Device σ) (a : Nat) (buffer : Nat → Nat) :
    (read_page ar d a buffer).2.1._write_enabled = d._write_enabled := by
  cases hb : (busy ar d).1
  · simp only [read_page, hb, Bool.false_eq_true, if_false]
    rw [release_device_we, read_reg_loop_we, SPI_transfer_we, SPI_transfer_we,
      SPI_transfer_we, SPI_transfer_we, select_device_we]
    rfl
  · simp only [read_page, hb, if_true]
    rfl

theorem reset_we (d : Device σ) : (reset ar d).2._write_enabled = d._write_enabled := by
  cases h1 : (busy ar d).1 with
  | true => simp [reset, h1]
  | false =>
    cases h2 : (busy ar (busy ar d).2).1 with
    | true => simp [reset, h1, write_command_busy ar _ _ h2]
    | false =>
      have hs := (write_command_free ar (busy ar d).2 0x66 h2).1
      simp [reset, h1, hs, W25Q64FV_INSTRUCTION_ENABLE_RESET, write_command_we]

theorem power_down_we (d : Device σ) :
    (power_down ar d).2._write_enabled = d._write_enabled := by
  cases h1 : (busy ar d).1 with
  | true => simp [power_down, h1]
  | false =>
    cases h2 : (busy ar (busy ar d).2).1 with
    | true => simp [power_down, h1, write_command_busy ar _ _ h2]
    | false =>
      have hs := (write_command_free ar (busy ar d).2 0xB9 h2).1
      simp [power_down, h1, hs, W25Q64FV_INSTRUCTION_POWER_DOWN, write_command_we]

theorem release_power_down_we (d : Device σ) :
    (release_power_down ar d).2._write_enabled = d._write_enabled := rfl

theorem get_jedec_we (d : Device σ) (m t c : Nat) :
    (get_jedec ar d m t c).2.1._write_enabled = d._write_enabled := by
  have h := read_reg_we ar (busy ar d).2 W25Q64FV_INSTRUCTION_JEDEC_ID (fun _ => 0) 3
  cases h1 : (busy ar d).1 with
  | true => simp [get_jedec, h1]
  | false =>
    by_cases hs : (read_reg ar (busy ar d).2 W25Q64FV_INSTRUCTION_JEDEC_ID (fun _ => 0) 3).1
        = W25Q64FV_OK
    · simpa [get_jedec, h1, hs] using h
    · simpa [get_jedec, h1, hs] using h

theorem begin_we (d : Device σ) (cs_pin : Int) (buffer : Nat → Nat) :
    (begin ar d cs_pin buffer).2._write_enabled = d._write_enabled := by
  have h := read_reg_we ar (begin_setup ar d cs_pin)
    W25Q64FV_INSTRUCTION_MANUFACTURER_DEVICE_ID buffer 5
  by_cases hz : (read_reg ar (begin_setup ar d cs_pin)
      W25Q64FV_INSTRUCTION_MANUFACTURER_DEVICE_ID buffer 5).2.2 4 = 0
  · simpa [begin, hz] using h
  · simp only [begin, hz, if_false, reset_we]
    exact h

end flag

section waits

variable (ar : Arduino σ)

theorem millis_emits (d : Device σ) : Emits d (millis ar d).2 [] :=
  ⟨[Event.millis (millis ar d).1], by simp, by simp [transactions, transactions_from]⟩

theorem delay_emits (d : Device σ) (n : Nat) : Emits d (delay ar d n) [] :=
  ⟨[Event.delay n], by simp, by simp [transactions, transactions_from]⟩

/-- The polling loop touches neither the flag nor anything on the bus but
status register 1. -/
theorem wait_until_free_loop_keeps (start t : Nat) (fuel : Nat) :
    ∀ (d d' : Device σ), wait_until_free_loop ar start t fuel d = some d' →
      d'._write_enabled = d._write_enabled ∧
      ∃ txs, Emits d d' txs ∧ ∀ tx ∈ txs, tx = status_read := by
  induction fuel with
  | zero => intro d d' h; simp [wait_until_free_loop] at h
  | succ n ih =>
    intro d d' h
    have hpoll : Emits d (millis ar (busy ar d).2).2 ([status_read] ++ []) :=
      (busy_emits ar d).trans (millis_emits ar (busy ar d).2)
    rw [wait_until_free_loop] at h
    split at h
    · obtain ⟨hw, txs, hem, hall⟩ := ih _ _ h
      refine ⟨by simpa using hw, ([status_read] ++ []) ++ ([] ++ txs), ?_, ?_⟩
      · exact hpoll.trans ((delay_emits ar _ 1).trans hem)
      · intro tx htx
        simp only [List.append_nil, List.nil_append, List.singleton_append,
          List.mem_cons] at htx
        rcases htx with h1 | h1
        · exact h1
        · exact hall tx h1
    · simp only [Option.some.injEq] at h
      subst h
      exact ⟨rfl, _, hpoll, by simp⟩

theorem wait_until_free_keeps (fuel : Nat) (d d' : Device σ) (t : Nat) (s : W25Q64FV_status_t)
    (h : wait_until_free ar fuel d t = some (s, d')) :
    d'._write_enabled = d._write_enabled ∧
    ∃ txs, Emits d d' txs ∧ ∀ tx ∈ txs, tx = status_read := by
  simp only [wait_until_free] at h
  cases hl : wait_until_free_loop ar (millis ar d).1 t fuel (millis ar d).2 with
  | none => simp [hl] at h
  | some d1 =>
    obtain ⟨hw, txs, hem, hall⟩ := wait_until_free_loop_keeps ar _ _ _ _ _ hl
    have hd : d' = (busy ar d1).2 := by
      cases hb : (busy ar d1).1 <;> simp [hl, hb] at h <;> exact h.2.symm
    subst hd
    refine ⟨by simpa using hw, ([] ++ txs) ++ [status_read], ?_, ?_⟩
    · exact ((millis_emits ar d).trans hem).trans (busy_emits ar d1)
    · intro tx htx
      simp only [List.nil_append, List.mem_append, List.mem_singleton] at htx
      rcases htx with h1 | h1
      · exact hall tx h1
      · exact h1

end waits

section programs

variable (ar : Arduino σ)

theorem no_write_enable_append {a b : List (List Nat)} (ha : no_write_enable a)
    (hb : no_write_enable b) : no_write_enable (a ++ b) := by
  intro tx htx
  rcases List.mem_append.mp htx with h | h
  · exact ha tx h
  · exact hb tx h

theorem no_write_enable_status {txs : List (List Nat)} (h : ∀ tx ∈ txs, tx = status_read) :
    no_write_enable txs := by
  intro tx htx
  rw [h tx htx]
  decide

theorem no_write_enable_single (tx : List Nat) (h : tx.head? ≠ some 0x06) :
    no_write_enable [tx] := by
  intro t ht
  rw [List.mem_singleton.mp ht]
  exact h

theorem write_reg_busy (d : Device σ) (reg : Nat) (buffer : Nat → Nat) (length : Nat)
    (h : (busy ar d).1 = true) :
    write_reg ar d reg buffer length = (W25Q64FV_BUSY, (busy ar d).2) := by
  simp [write_reg, h]

/-- With the flag set, the part of `write_page` and of the erases before the
command is the busy check alone. -/
theorem auto_enable_after_check (d : Device σ) (h : d._write_enabled = true) :
    auto_enable ar (busy ar d).2 = (busy ar d).2 :=
  auto_enable_of_set ar _ (by rw [busy_we]; exact h)

/-- With the flag set, `write_page` keeps it and sends no write-enable. -/
theorem write_page_set (d : Device σ) (a : Nat) (buffer : Nat → Nat)
    (h : d._write_enabled = true) :
    (write_page ar d a buffer).2._write_enabled = true ∧
    ∃ txs, Emits d (write_page ar d a buffer).2 txs ∧ no_write_enable txs := by
  constructor
  · rw [write_page_we, auto_enable_after_check ar d h, busy_we, h]
    simp
  · cases hb : (busy ar d).1 with
    | true =>
      refine ⟨[status_read], ?_, no_write_enable_status (by simp)⟩
      have : write_page ar d a buffer = (W25Q64FV_BUSY, (busy ar d).2) := by
        simp [write_page, hb]
      rw [this]
      exact busy_emits ar d
    | false =>
      have hp := (write_page_free ar d a buffer hb).2
      rw [auto_enable_after_check ar d h] at hp
      exact ⟨_, (busy_emits ar d).trans hp,
        no_write_enable_append (no_write_enable_status (by simp))
          (no_write_enable_single _ (by simp))⟩

/-- With the flag set, the addressed command of an erase sends no write-enable. -/
theorem erase_command_set (d : Device σ) (reg a : Nat) (hreg : reg % 256 ≠ 0x06)
    (h : d._write_enabled = true) :
    (write_reg ar (auto_enable ar (busy ar d).2) reg (address_buffer a) 3).2._write_enabled
      = true ∧
    ∃ txs, Emits d (write_reg ar (auto_enable ar (busy ar d).2) reg (address_buffer a) 3).2 txs ∧
      no_write_enable txs := by
  rw [auto_enable_after_check ar d h]
  refine ⟨by rw [write_reg_we, busy_we, h], ?_⟩
  cases hb : (busy ar (busy ar d).2).1 with
  | true =>
    rw [write_reg_busy ar _ _ _ _ hb]
    exact ⟨_, (busy_emits ar d).trans (busy_emits ar _), no_write_enable_status (by simp)⟩
  | false =>
    have hc := (write_reg_address_free ar (busy ar d).2 reg a hb).2
    refine ⟨_, (busy_emits ar d).trans hc, no_write_enable_append
      (no_write_enable_status (by simp)) ?_⟩
    intro tx htx
    simp only [List.mem_cons, List.mem_singleton, List.not_mem_nil, or_false] at htx
    rcases htx with h1 | h1
    · rw [h1]; decide
    · rw [h1]; simpa using hreg

/-- With the flag set, the command of `erase_chip` sends no write-enable. -/
theorem erase_chip_command_set (d : Device σ) (h : d._write_enabled = true) :
    (write_command ar (auto_enable ar (busy ar d).2) 0xC7).2._write_enabled = true ∧
    ∃ txs, Emits d (write_command ar (auto_enable ar (busy ar d).2) 0xC7).2 txs ∧
      no_write_enable txs := by
  rw [auto_enable_after_check ar d h]
  refine ⟨by rw [write_command_we, busy_we, h], ?_⟩
  cases hb : (busy ar (busy ar d).2).1 with
  | true =>
    rw [write_command_busy ar _ _ hb]
    exact ⟨_, (busy_emits ar d).trans (busy_emits ar _), no_write_enable_status (by simp)⟩
  | false =>
    have hc := (write_command_free ar (busy ar d).2 0xC7 hb).2.2
    refine ⟨_, (busy_emits ar d).trans hc, no_write_enable_append
      (no_write_enable_status (by simp)) ?_⟩
    intro tx htx
    simp only [List.mem_cons, List.mem_singleton, List.not_mem_nil, or_false] at htx
    rcases htx with h1 | h1
    · rw [h1]; decide
    · rw [h1]; decide

/-- The end of every erase: the status of the command when it failed, the wait
when `hold` is set, OK otherwise.  It keeps the flag and adds status reads only. -/
theorem erase_tail (fuel : Nat) (r res : W25Q64FV_status_t × Device σ) (hold : Bool) (t : Nat)
    (h : (if r.1 ≠ W25Q64FV_OK then some r
      else if hold then wait_until_free ar fuel r.2 t else some (W25Q64FV_OK, r.2)) = some res) :
    res.2._write_enabled = r.2._write_enabled ∧
    ∃ txs, Emits r.2 res.2 txs ∧ no_write_enable txs := by
  by_cases hs : r.1 = W25Q64FV_OK
  · cases hold with
    | false =>
      simp [hs] at h
      subst h
      exact ⟨rfl, [], Emits.refl _, by intro tx htx; simp at htx⟩
    | true =>
      simp [hs] at h
      obtain ⟨hw, txs, hem, hall⟩ := wait_until_free_keeps ar fuel r.2 res.2 t res.1 h
      exact ⟨hw, txs, hem, no_write_enable_status hall⟩
  · simp [hs] at h
    subst h
    exact ⟨rfl, [], Emits.refl _, by intro tx htx; simp at htx⟩

end programs

section calls

variable (ar : Arduino σ)

/-- The common shape of the four erases, with the flag set on entry. -/
theorem erase_shape_set (fuel : Nat) (d : Device σ) (r res : W25Q64FV_status_t × Device σ)
    (hold : Bool) (t : Nat) (hd : d._write_enabled = true)
    (hflag : r.2._write_enabled = true)
    (hem : ∃ txs, Emits d r.2 txs ∧ no_write_enable txs)
    (h : (if (busy ar d).1 then some (W25Q64FV_BUSY, (busy ar d).2)
      else if r.1 ≠ W25Q64FV_OK then some r
      else if hold then wait_until_free ar fuel r.2 t else some (W25Q64FV_OK, r.2)) = some res) :
    res.2._write_enabled = true ∧ ∃ txs, Emits d res.2 txs ∧ no_write_enable txs := by
  cases hb : (busy ar d).1 with
  | true =>
    simp [hb] at h
    subst h
    exact ⟨by rw [busy_we]; exact hd, [status_read], busy_emits ar d,
      no_write_enable_status (by simp)⟩
  | false =>
    simp only [hb, Bool.false_eq_true, if_false] at h
    obtain ⟨hw, txs2, hem2, hno2⟩ := erase_tail ar fuel r res hold t h
    obtain ⟨txs1, hem1, hno1⟩ := hem
    exact ⟨by rw [hw, hflag], txs1 ++ txs2, hem1.trans hem2, no_write_enable_append hno1 hno2⟩

/-- Without hold every erase returns, whatever the chip does. -/
theorem erase_shape_returns (d : Device σ) (r : W25Q64FV_status_t × Device σ) :
    ∃ res, (if (busy ar d).1 then some (W25Q64FV_BUSY, (busy ar d).2)
      else if r.1 ≠ W25Q64FV_OK then some r
      else if false then none else some (W25Q64FV_OK, r.2)) = some res := by
  cases hb : (busy ar d).1 with
  | true => exact ⟨(W25Q64FV_BUSY, (busy ar d).2), by simp⟩
  | false =>
    by_cases hs : r.1 = W25Q64FV_OK
    · exact ⟨(W25Q64FV_OK, r.2), by simp [hs]⟩
    · exact ⟨r, by simp [hs]⟩

/-- With the flag set, `write_page` and the erases keep it and send no
write-enable command, neither before nor after their own command. -/
theorem program_or_erase_set (fuel : Nat) (op : Op) (d d' : Device σ)
    (hop : op.is_program_or_erase = true) (hd : d._write_enabled = true)
    (h : call ar fuel op d = some d') :
    d'._write_enabled = true ∧ ∃ txs, Emits d d' txs ∧ no_write_enable txs := by
  cases op with
  | write_page a buffer =>
    simp only [call, Option.some.injEq] at h
    subst h
    exact write_page_set ar d a buffer hd
  | erase_sector a hold =>
    simp only [call, Option.map_eq_some'] at h
    obtain ⟨res, hres, rfl⟩ := h
    obtain ⟨hf, hem⟩ := erase_command_set ar d 0x20 a (by decide) hd
    exact erase_shape_set ar fuel d _ res hold 5000 hd hf hem hres
  | erase_block_32 a hold =>
    simp only [call, Option.map_eq_some'] at h
    obtain ⟨res, hres, rfl⟩ := h
    obtain ⟨hf, hem⟩ := erase_command_set ar d 0x52 a (by decide) hd
    exact erase_shape_set ar fuel d _ res hold 5000 hd hf hem hres
  | erase_block_64 a hold =>
    simp only [call, Option.map_eq_some'] at h
    obtain ⟨res, hres, rfl⟩ := h
    obtain ⟨hf, hem⟩ := erase_command_set ar d 0xD8 a (by decide) hd
    exact erase_shape_set ar fuel d _ res hold 5000 hd hf hem hres
  | erase_chip hold =>
    simp only [call, Option.map_eq_some'] at h
    obtain ⟨res, hres, rfl⟩ := h
    obtain ⟨hf, hem⟩ := erase_chip_command_set ar d hd
    exact erase_shape_set ar fuel d _ res hold 100000 hd hf hem hres
  | _ => simp [Op.is_program_or_erase] at hop

/-- The command part of `write_page` and of the erases (the call without hold)
always returns. -/
theorem program_or_erase_returns (fuel : Nat) (op : Op) (d : Device σ)
    (hop : op.is_program_or_erase = true) :
    ∃ d', call ar fuel op.without_hold d = some d' := by
  cases op with
  | write_page a buffer => exact ⟨_, rfl⟩
  | erase_sector a hold =>
    obtain ⟨res, hres⟩ := erase_shape_returns ar d
      (write_reg ar (auto_enable ar (busy ar d).2) 0x20 (address_buffer a) 3)
    exact ⟨res.2, by simp only [Op.without_hold, call, Option.map_eq_some']; exact ⟨res, hres, rfl⟩⟩
  | erase_block_32 a hold =>
    obtain ⟨res, hres⟩ := erase_shape_returns ar d
      (write_reg ar (auto_enable ar (busy ar d).2) 0x52 (address_buffer a) 3)
    exact ⟨res.2, by simp only [Op.without_hold, call, Option.map_eq_some']; exact ⟨res, hres, rfl⟩⟩
  | erase_block_64 a hold =>
    obtain ⟨res, hres⟩ := erase_shape_returns ar d
      (write_reg ar (auto_enable ar (busy ar d).2) 0xD8 (address_buffer a) 3)
    exact ⟨res.2, by simp only [Op.without_hold, call, Option.map_eq_some']; exact ⟨res, hres, rfl⟩⟩
  | erase_chip hold =>
    obtain ⟨res, hres⟩ := erase_shape_returns ar d
      (write_command ar (auto_enable ar (busy ar d).2) 0xC7)
    exact ⟨res.2, by simp only [Op.without_hold, call, Option.map_eq_some']; exact ⟨res, hres, rfl⟩⟩
  | _ => simp [Op.is_program_or_erase] at hop

end calls

section sticky

variable (ar : Arduino σ)

/-- A set flag survives every call but `disable_writing`. -/
theorem call_keeps_set (fuel : Nat) (op : Op) (d d' : Device σ)
    (hop : op.is_disable_writing = false) (hd : d._write_enabled = true)
    (h : call ar fuel op d = some d') : d'._write_enabled = true := by
  cases op with
  | begin cs_pin buffer =>
    simp only [call, Option.some.injEq] at h
    rw [← h, begin_we, hd]
  | enable_writing =>
    simp only [call, Option.some.injEq] at h
    rw [← h, enable_writing_we, hd]
    simp
  | disable_writing => simp [Op.is_disable_writing] at hop
  | write_page a buffer =>
    exact (program_or_erase_set ar fuel (Op.write_page a buffer) d d' rfl hd h).1
  | read_page a buffer =>
    simp only [call, Option.some.injEq] at h
    rw [← h, read_page_we, hd]
  | erase_sector a hold =>
    exact (program_or_erase_set ar fuel (Op.erase_sector a hold) d d' rfl hd h).1
  | erase_block_32 a hold =>
    exact (program_or_erase_set ar fuel (Op.erase_block_32 a hold) d d' rfl hd h).1
  | erase_block_64 a hold =>
    exact (program_or_erase_set ar fuel (Op.erase_block_64 a hold) d d' rfl hd h).1
  | erase_chip hold =>
    exact (program_or_erase_set ar fuel (Op.erase_chip hold) d d' rfl hd h).1
  | get_jedec m t c =>
    simp only [call, Option.some.injEq] at h
    rw [← h, get_jedec_we, hd]
  | busy =>
    simp only [call, Option.some.injEq] at h
    rw [← h, busy_we, hd]
  | wait_until_free t =>
    simp only [call, Option.map_eq_some'] at h
    obtain ⟨res, hres, rfl⟩ := h
    rw [(wait_until_free_keeps ar fuel d res.2 t res.1 hres).1, hd]
  | reset =>
    simp only [call, Option.some.injEq] at h
    rw [← h, reset_we, hd]
  | power_down =>
    simp only [call, Option.some.injEq] at h
    rw [← h, power_down_we, hd]
  | release_power_down =>
    simp only [call, Option.some.injEq] at h
    rw [← h, release_power_down_we, hd]

/-- A set flag survives any sequence of calls without `disable_writing`. -/
theorem run_keeps_set (fuel : Nat) (ops : List Op) :
    ∀ (d d' : Device σ), (∀ o ∈ ops, o.is_disable_writing = false) →
      d._write_enabled = true → run ar fuel ops d = some d' → d'._write_enabled = true := by
  induction ops with
  | nil =>
    intro d d' _ hd h
    simp only [run, Option.some.injEq] at h
    rw [← h, hd]
  | cons op ops ih =>
    intro d d' hops hd h
    simp only [run, Option.bind_eq_some] at h
    obtain ⟨d1, h1, h2⟩ := h
    exact ih d1 d' (fun o ho => hops o (List.mem_cons_of_mem _ ho))
      (call_keeps_set ar fuel op d d1 (hops op (List.mem_cons_self _ _)) hd h1) h2

end sticky

/-- On a clear flag the automatic enable sets the flag exactly when its
`enable_writing` returns OK. -/
theorem auto_enable_of_clear (ar : Arduino σ) (d : Device σ) (h : d._write_enabled = false) :
    (auto_enable ar d)._write_enabled = true ↔ (enable_writing ar d).1 = W25Q64FV_OK := by
  have hw := enable_writing_we ar d
  by_cases hs : (enable_writing ar d).1 = W25Q64FV_OK
  · simp only [auto_enable, h, Bool.not_false, if_true]
    rw [hw, if_pos hs]
    simp [hs]
  · simp only [auto_enable, h, Bool.not_false, if_true]
    rw [hw, if_neg hs, h]
    simp [hs]

/-- The flag after any erase: the one its automatic enable left, or the old
one when the chip was busy at the first check. -/
theorem erase_shape_flag (ar : Arduino σ) (fuel : Nat) (d : Device σ)
    (r res : W25Q64FV_status_t × Device σ) (hold : Bool) (t : Nat)
    (h : (if (busy ar d).1 then some (W25Q64FV_BUSY, (busy ar d).2)
      else if r.1 ≠ W25Q64FV_OK then some r
      else if hold then wait_until_free ar fuel r.2 t else some (W25Q64FV_OK, r.2)) = some res) :
    res.2._write_enabled = if (busy ar d).1 then d._write_enabled else r.2._write_enabled := by
  cases hb : (busy ar d).1 with
  | true =>
    simp [hb] at h
    subst h
    simp
  | false =>
    simp only [hb, Bool.false_eq_true, if_false] at h
    exact (erase_tail ar fuel r res hold t h).1

/-- The flag after `write_page` or an erase. -/
theorem program_or_erase_flag (ar : Arduino σ) (fuel : Nat) (op : Op) (d d' : Device σ)
    (hop : op.is_program_or_erase = true) (h : call ar fuel op d = some d') :
    d'._write_enabled
      = if (busy ar d).1 then d._write_enabled
        else (auto_enable ar (busy ar d).2)._write_enabled := by
  cases op with
  | write_page a buffer =>
    simp only [call, Option.some.injEq] at h
    rw [← h, write_page_we]
  | erase_sector a hold =>
    simp only [call, Option.map_eq_some'] at h
    obtain ⟨res, hres, rfl⟩ := h
    rw [erase_shape_flag ar fuel d _ res hold 5000 hres, write_reg_we]
  | erase_block_32 a hold =>
    simp only [call, Option.map_eq_some'] at h
    obtain ⟨res, hres, rfl⟩ := h
    rw [erase_shape_flag ar fuel d _ res hold 5000 hres, write_reg_we]
  | erase_block_64 a hold =>
    simp only [call, Option.map_eq_some'] at h
    obtain ⟨res, hres, rfl⟩ := h
    rw [erase_shape_flag ar fuel d _ res hold 5000 hres, write_reg_we]
  | erase_chip hold =>
    simp only [call, Option.map_eq_some'] at h
    obtain ⟨res, hres, rfl⟩ := h
    rw [erase_shape_flag ar fuel d _ res hold 100000 hres, write_command_we]
  | _ => simp [Op.is_program_or_erase] at hop

/-- On a clear flag, `write_page` and the erases set the flag exactly when
their automatic `enable_writing` runs and returns OK. -/
theorem program_or_erase_clear (ar : Arduino σ) (fuel : Nat) (op : Op) (d d' : Device σ)
    (hop : op.is_program_or_erase = true) (h : call ar fuel op d = some d')
    (hd : d._write_enabled = false) :
    d'._write_enabled = true ↔
      (busy ar d).1 = false ∧ (enable_writing ar (busy ar d).2).1 = W25Q64FV_OK := by
  rw [program_or_erase_flag ar fuel op d d' hop h]
  cases hb : (busy ar d).1 with
  | true => simp [hd]
  | false =>
    simp only [Bool.false_eq_true, if_false, true_and]
    exact auto_enable_of_clear ar _ (by rw [busy_we]; exact hd)

/-- C11, as the code has it.  A set write-enable flag is cleared by a
successful `disable_writing` and by no other call; `reset`, `power_down` and
`release_power_down` leave the flag as it is; `write_page` and the erases
never clear it: they leave a set flag set, and they set a clear flag exactly
when their automatic `enable_writing` runs (the chip is free at their check)
and returns OK.  Hence, once `enable_writing` has returned OK, after any
sequence of calls without `disable_writing` the flag is still set, and a
`write_page` or erase call made then sends no write-enable command `0x06`:
not in its command part (the call without hold, which always returns), and
not in the whole call when it returns. -/
theorem write_enable_sticky (ar : Arduino σ) (fuel : Nat) :
    (∀ (op : Op) (d d' : Device σ), call ar fuel op d = some d' →
      d._write_enabled = true → d'._write_enabled = false →
      op.is_disable_writing = true ∧ (disable_writing ar d).1 = W25Q64FV_OK) ∧
    (∀ d : Device σ,
      (reset ar d).2._write_enabled = d._write_enabled ∧
      (power_down ar d).2._write_enabled = d._write_enabled ∧
      (release_power_down ar d).2._write_enabled = d._write_enabled) ∧
    (∀ (op : Op) (d d' : Device σ), op.is_program_or_erase = true →
      call ar fuel op d = some d' → d._write_enabled = true → d'._write_enabled = true) ∧
    (∀ (op : Op) (d d' : Device σ), op.is_program_or_erase = true →
      call ar fuel op d = some d' → d._write_enabled = false →
      (d'._write_enabled = true ↔
        (busy ar d).1 = false ∧ (enable_writing ar (busy ar d).2).1 = W25Q64FV_OK)) ∧
    (∀ (d0 d1 : Device σ) (ops : List Op) (op : Op),
      (enable_writing ar d0).1 = W25Q64FV_OK →
      (∀ o ∈ ops, o.is_disable_writing = false) →
      run ar fuel ops (enable_writing ar d0).2 = some d1 →
      op.is_program_or_erase = true →
      d1._write_enabled = true ∧
      (∃ d2 txs, call ar fuel op.without_hold d1 = some d2 ∧
        Emits d1 d2 txs ∧ no_write_enable txs) ∧
      (∀ d2, call ar fuel op d1 = some d2 →
        ∃ txs, Emits d1 d2 txs ∧ no_write_enable txs)) := by
  refine ⟨?_, fun d => ⟨reset_we ar d, power_down_we ar d, release_power_down_we ar d⟩,
    fun op d d' hop h hd => (program_or_erase_set ar fuel op d d' hop hd h).1,
    fun op d d' hop h hd => program_or_erase_clear ar fuel op d d' hop h hd, ?_⟩
  · intro op d d' h hd hd'
    cases hop : op.is_disable_writing with
    | false =>
      have := call_keeps_set ar fuel op d d' hop hd h
      rw [hd'] at this
      exact absurd this (by decide)
    | true =>
      refine ⟨rfl, ?_⟩
      cases op <;> simp [Op.is_disable_writing] at hop
      simp only [call, Option.some.injEq] at h
      have hw := disable_writing_we ar d
      rw [h, hd', hd] at hw
      by_contra hs
      simp [hs] at hw
  · intro d0 d1 ops op hok hops hrun hop
    have h0 : (enable_writing ar d0).2._write_enabled = true := by
      rw [enable_writing_we, if_pos hok]
    have h1 := run_keeps_set ar fuel ops _ d1 hops h0 hrun
    refine ⟨h1, ?_, fun d2 h2 => (program_or_erase_set ar fuel op d1 d2 hop h1 h2).2⟩
    obtain ⟨d2, h2⟩ := program_or_erase_returns ar fuel op d1 hop
    have hop' : op.without_hold.is_program_or_erase = true := by
      cases op <;> simp [Op.is_program_or_erase, Op.without_hold] at hop ⊢
    exact ⟨d2, (program_or_erase_set ar fuel _ d1 d2 hop' h1 h2).2.choose, h2,
      (program_or_erase_set ar fuel _ d1 d2 hop' h1 h2).2.choose_spec⟩

set_option maxRecDepth 100000 in
/-- C11 on a chip that is free throughout: after `enable_writing`, an erase
with hold, a reset, a chip erase and a power-down, the flag is still set and
`erase_block_64(0x010000)` sends no write-enable; `write_page` leaves the set
flag set and sets a clear one; the call that clears it is a `disable_writing`
that returned OK. -/
theorem write_enable_sticky_witness :
    (∃ d1, run scripted_chip 1
        [Op.erase_sector 0x001000 true, Op.reset, Op.erase_chip false, Op.power_down]
        (enable_writing scripted_chip (new_device [])).2 = some d1 ∧
      d1._write_enabled = true ∧
      ∃ d2 txs, call scripted_chip 1 (Op.erase_block_64 0x010000 false) d1 = some d2 ∧
        Emits d1 d2 txs ∧ no_write_enable txs) ∧
    (write_page scripted_chip (enable_writing scripted_chip (new_device [])).2 0x000100
      (fun i => i % 256)).2._write_enabled = true ∧
    (write_page scripted_chip (new_device []) 0x000100 (fun i => i % 256)).2._write_enabled
      = true ∧
    (disable_writing scripted_chip (enable_writing scripted_chip (new_device [])).2).1
      = W25Q64FV_OK := by
  have hsome : (run scripted_chip 1
      [Op.erase_sector 0x001000 true, Op.reset, Op.erase_chip false, Op.power_down]
      (enable_writing scripted_chip (new_device [])).2).isSome = true := by decide
  obtain ⟨d1, hd1⟩ := Option.isSome_iff_exists.mp hsome
  have h := (write_enable_sticky scripted_chip 1).2.2.2.2 (new_device []) d1
    [Op.erase_sector 0x001000 true, Op.reset, Op.erase_chip false, Op.power_down]
    (Op.erase_block_64 0x010000 true) (by decide) (by decide) hd1 rfl
  have hp := (write_enable_sticky scripted_chip 1).2.2.1 (Op.write_page 0x000100 (fun i => i % 256))
    (enable_writing scripted_chip (new_device [])).2 _ rfl rfl (by decide)
  have hq := ((write_enable_sticky scripted_chip 1).2.2.2.1
    (Op.write_page 0x000100 (fun i => i % 256)) (new_device []) _ rfl rfl rfl).mpr
    ⟨by decide, by decide⟩
  have hc := (write_enable_sticky scripted_chip 1).1 Op.disable_writing
    (enable_writing scripted_chip (new_device [])).2 _ rfl (by decide) (by decide)
  exact ⟨⟨d1, hd1, h.1, h.2.1⟩, hp, hq, hc.2⟩

/-- C11 as stated fails: `write_page` does not leave the flag unchanged.  On a
free chip and with the flag clear, its automatic `enable_writing` sets it. -/
theorem write_page_sets_flag_counterexample :
    (new_device ([] : List Nat))._write_enabled = false ∧
    ¬ ((write_page scripted_chip (new_device []) 0x000100 (fun i => i % 256)).2._write_enabled
        = (new_device ([] : List Nat))._write_enabled) := by
  refine ⟨rfl, ?_⟩
  rw [write_page_we]
  decide

/-! ## C10 -/

/-- From the facts about the command of an erase to its whole bus activity. -/
theorem erase_sends_once_of (ar : Arduino σ) (fuel : Nat) (d d' : Device σ)
    (command : List Nat) (timeout : Nat)
    (erase : Bool → Option (W25Q64FV_status_t × Device σ))
    (hfalse : erase false = some (W25Q64FV_OK, d'))
    (htrue : erase true = wait_until_free ar fuel d' timeout)
    (hcmd : ∃ pre,
      Emits d d' (pre ++ [command]) ∧
      (∀ tx ∈ pre, tx = status_read ∨ tx = [0x06]) ∧
      (d._write_enabled = true → pre = [status_read, status_read]) ∧
      (d._write_enabled = false → (busy ar (busy ar d).2).1 = false →
        (busy ar (busy ar (busy ar d).2).2).1 = false →
        pre = [status_read, status_read, status_read, [0x06], status_read])) :
    erase_sends_once ar fuel d command timeout erase := by
  obtain ⟨pre, hem, hall, hs, hc⟩ := hcmd
  refine ⟨d', pre, hfalse, hem, hall, hs, hc, htrue, ?_, ?_⟩
  · intro res hres
    rw [htrue] at hres
    obtain ⟨-, post, hpost, hpall⟩ := wait_until_free_keeps ar fuel d' res.2 timeout res.1 hres
    exact ⟨post, hem.trans hpost, hpall⟩
  · intro ha hb hf
    obtain ⟨d'', hw, hem2⟩ := wait_until_free_on_free ar d' timeout ha hb
    exact ⟨d'', by rw [htrue]; exact hw fuel hf, hem.trans hem2⟩

/-- C10: when the chip reports not busy at the check of the erase and at the
check of its command write, `erase_sector(A)`, `erase_block_32(A)` and
`erase_block_64(A)` send exactly one command transaction, of exactly 4 bytes:
the opcode (`0x20`, `0x52`, `0xD8`), then `(A >> 16) mod 256`,
`(A >> 8) mod 256`, `A mod 256`; `erase_chip` sends the one-byte transaction
`0xC7`.  Around it there are only status reads and, with the flag clear, the
write-enable `0x06` before it (`erase_sends_once` spells this out for both
values of `hold`).  Two addresses that agree in their low 24 bits give the
same three bytes, and for `A < 2^24` the three bytes give `A` back. -/
theorem erase_wire_format (ar : Arduino σ) (fuel : Nat) (d : Device σ) (A : Nat)
    (h1 : (busy ar d).1 = false) (h2 : (busy ar (auto_enable ar (busy ar d).2)).1 = false) :
    erase_sends_once ar fuel d [0x20, (A >>> 16) % 256, (A >>> 8) % 256, A % 256] 5000
      (fun hold => erase_sector ar fuel d A hold) ∧
    erase_sends_once ar fuel d [0x52, (A >>> 16) % 256, (A >>> 8) % 256, A % 256] 5000
      (fun hold => erase_block_32 ar fuel d A hold) ∧
    erase_sends_once ar fuel d [0xD8, (A >>> 16) % 256, (A >>> 8) % 256, A % 256] 5000
      (fun hold => erase_block_64 ar fuel d A hold) ∧
    erase_sends_once ar fuel d [0xC7] 100000 (fun hold => erase_chip ar fuel d hold) ∧
    [0x20, (A >>> 16) % 256, (A >>> 8) % 256, A % 256].length = 4 ∧
    (∀ A' : Nat, A % 16777216 = A' % 16777216 →
      address_buffer A 0 = address_buffer A' 0 ∧ address_buffer A 1 = address_buffer A' 1 ∧
      address_buffer A 2 = address_buffer A' 2) ∧
    (A < 16777216 →
      A = address_buffer A 0 * 65536 + address_buffer A 1 * 256 + address_buffer A 2) := by
  refine ⟨?_, ?_, ?_, ?_, rfl, ?_, ?_⟩
  · obtain ⟨hok, hcmd⟩ := erase_command_emits ar d 0x20 A h2
    exact erase_sends_once_of ar fuel d _ _ 5000 _
      (by simp [erase_sector, h1, hok, W25Q64FV_INSTRUCTION_SECTOR_4K_ERASE])
      (by simp [erase_sector, h1, hok, W25Q64FV_INSTRUCTION_SECTOR_4K_ERASE,
        W25Q64FV_DEFAULT_TIMEOUT]) hcmd
  · obtain ⟨hok, hcmd⟩ := erase_command_emits ar d 0x52 A h2
    exact erase_sends_once_of ar fuel d _ _ 5000 _
      (by simp [erase_block_32, h1, hok, W25Q64FV_INSTRUCTION_BLOCK_32K_ERASE])
      (by simp [erase_block_32, h1, hok, W25Q64FV_INSTRUCTION_BLOCK_32K_ERASE,
        W25Q64FV_DEFAULT_TIMEOUT]) hcmd
  · obtain ⟨hok, hcmd⟩ := erase_command_emits ar d 0xD8 A h2
    exact erase_sends_once_of ar fuel d _ _ 5000 _
      (by simp [erase_block_64, h1, hok, W25Q64FV_INSTRUCTION_BLOCK_64K_ERASE])
      (by simp [erase_block_64, h1, hok, W25Q64FV_INSTRUCTION_BLOCK_64K_ERASE,
        W25Q64FV_DEFAULT_TIMEOUT]) hcmd
  · obtain ⟨hok, hcmd⟩ := erase_chip_command_emits ar d h2
    exact erase_sends_once_of ar fuel d _ _ 100000 _
      (by simp [erase_chip, h1, hok, W25Q64FV_INSTRUCTION_CHIP_ERASE])
      (by simp [erase_chip, h1, hok, W25Q64FV_INSTRUCTION_CHIP_ERASE,
        W25Q64FV_CHIP_ERASE_TIMEOUT]) hcmd
  · intro A' h
    obtain ⟨a0, a1, a2⟩ := address_buffer_bytes A
    obtain ⟨b0, b1, b2⟩ := address_buffer_bytes A'
    rw [a0, a1, a2, b0, b1, b2]
    simp only [Nat.shiftRight_eq_div_pow]
    omega
  · intro h
    obtain ⟨a0, a1, a2⟩ := address_buffer_bytes A
    rw [a0, a1, a2]
    simp only [Nat.shiftRight_eq_div_pow]
    omega

/-- C10 on a chip that is free up to the erase command and reports busy right
after it (the thirteen answers `0x00`, then a status read answered `0x01`),
flag clear, `A = 0x123456`. -/
theorem erase_wire_format_witness :
    erase_sends_once scripted_chip 1
      (new_device [0, 0, 0, 0, 0, 0, 0, 0, 0, 0, 0, 0, 0, 0, 1]) [0x20, 0x12, 0x34, 0x56] 5000
      (fun hold => erase_sector scripted_chip 1
        (new_device [0, 0, 0, 0, 0, 0, 0, 0, 0, 0, 0, 0, 0, 0, 1]) 0x123456 hold) :=
  (erase_wire_format scripted_chip 1
    (new_device [0, 0, 0, 0, 0, 0, 0, 0, 0, 0, 0, 0, 0, 0, 1]) 0x123456
    (by decide) (by decide)).1

end W25Q64FV
